import Mathlib

/-!
Verification development for the TravelBuddy itinerary planner
(`src/lib/planner.ts`, `src/lib/geo.ts`, `src/lib/llm.ts`).

Modelling conventions (shallow embedding of the TypeScript source):

* JavaScript numbers that hold minute counts, day indices and durations are
  modelled as `ℤ`; score accumulators (which use decimal literals such as
  `3.2`) are modelled as `ℚ`; the geometric haversine path of the travel
  estimator (which uses `Math.sin` etc.) is modelled over `ℝ`.  All the
  arithmetic the claims touch is integer arithmetic and is exact in JS floats.
* Optional string fields (`location?: string`) are `Option String`.  The
  JavaScript `a || b` operator (which treats `""` and `undefined` as falsy)
  and the `a ?? b` operator (which only treats `undefined`/`null` as nullish)
  are modelled by distinct helpers, `jsOr`/`jsOrO` and `Option.getD`/`orElse`.
* Regular-expression tests from the source are modelled by explicit
  character-list scanners (word-boundary containment for `\b...\b` patterns,
  anchored scanners for the clock / hour-range patterns), written to follow
  the semantics of the concrete regexes they replace.  `toLowerCase` is
  modelled on ASCII (all strings the planner compares are ASCII).
* External asynchronous services (the distance-matrix lookup used by
  `applyAccurateTravelTimes`, the LLM used by `formatTimelineWithLLM`) are
  modelled as explicit oracle parameters, so every claim about the engine is
  quantified over the external behaviour.
-/

namespace TB

/-! ## Character and string utilities (ASCII models of JS string ops) -/

/-- ASCII lower-casing of a character, modelling `toLowerCase` on the ASCII
strings the planner manipulates. -/
def lcChar (c : Char) : Char :=
  if 65 ≤ c.toNat ∧ c.toNat ≤ 90 then Char.ofNat (c.toNat + 32) else c

def lcs (s : List Char) : List Char := s.map lcChar

/-- Lower-case a string (ASCII model of `String.prototype.toLowerCase`). -/
def lower (s : String) : String := String.mk (lcs s.data)

/-- JS whitespace test (the characters `\s` matches that occur in practice). -/
def isSpaceChar (c : Char) : Bool :=
  c = ' ' ∨ c = '\t' ∨ c = '\n' ∨ c = '\r'

def dropLeadingSpaces : List Char → List Char
  | [] => []
  | c :: r => if isSpaceChar c then dropLeadingSpaces r else c :: r

/-- Model of `String.prototype.trim`. -/
def trimCL (s : List Char) : List Char :=
  (dropLeadingSpaces ((dropLeadingSpaces s.reverse)).reverse)

def trimS (s : String) : String := String.mk (trimCL s.data)

def hasPrefixCL : List Char → List Char → Bool
  | [], _ => true
  | _ :: _, [] => false
  | a :: as, b :: bs => a = b ∧ hasPrefixCL as bs

/-- Model of `String.prototype.includes` (substring containment). -/
def containsCL (hay pat : List Char) : Bool :=
  match hay with
  | [] => pat = []
  | _ :: rest => hasPrefixCL pat hay ∨ containsCL rest pat

def containsS (hay pat : String) : Bool := containsCL hay.data pat.data

/-- Word character per the JS regex class `\w`. -/
def isWordChar (c : Char) : Bool :=
  ('a' ≤ c ∧ c ≤ 'z') ∨ ('A' ≤ c ∧ c ≤ 'Z') ∨ ('0' ≤ c ∧ c ≤ '9') ∨ c = '_'

def isWordOpt : Option Char → Bool
  | none => false
  | some c => isWordChar c

/-- Whether a `\b` boundary exists between two (possibly absent) characters. -/
def wordBoundary (l r : Option Char) : Bool := isWordOpt l ≠ isWordOpt r

def headOpt : List Char → Option Char
  | [] => none
  | c :: _ => some c

def lastOpt (l : List Char) : Option Char := headOpt l.reverse

/-- Word-boundary containment: models a test of the regex `\btok\b` against
`hay` (as the JS `RegExp.prototype.test` of such a pattern). -/
def wbAt (prev : Option Char) (hay tok : List Char) : Bool :=
  match hay with
  | [] => false
  | c :: rest =>
    (wordBoundary prev (headOpt (c :: rest)) ∧ hasPrefixCL tok (c :: rest) ∧
      wordBoundary (lastOpt tok) (headOpt ((c :: rest).drop tok.length)))
    ∨ wbAt (some c) rest tok

def wbContains (hay tok : List Char) : Bool := wbAt none hay tok

/-- Any of an alternation's literal branches matches with word boundaries:
models `\b(t1|t2|...)\b.test(hay)`. -/
def anyWb (hay : List Char) (toks : List (List Char)) : Bool :=
  toks.any (wbContains hay)

/-- Collapse runs of characters selected by `bad` into single spaces; `inRun`
records whether the previous character belonged to a run. -/
def collapseRunsGo (bad : Char → Bool) (inRun : Bool) : List Char → List Char
  | [] => []
  | c :: rest =>
    if bad c then
      if inRun then collapseRunsGo bad true rest
      else ' ' :: collapseRunsGo bad true rest
    else c :: collapseRunsGo bad false rest

/-- Collapse runs of characters selected by `bad` into single spaces
(the model of `replace(/X+/g, ' ')` for a character class `X`). -/
def collapseRuns (bad : Char → Bool) (l : List Char) : List Char :=
  collapseRunsGo bad false l

def isLowerAlnum (c : Char) : Bool := ('a' ≤ c ∧ c ≤ 'z') ∨ ('0' ≤ c ∧ c ≤ '9')

/-- JS `||` on plain strings (empty string is falsy). -/
def jsOr (a b : String) : String := if a = "" then b else a

/-- JS `a || b` where `a` is an optional string and `b` is a string. -/
def jsOrO (a : Option String) (b : String) : String :=
  match a with
  | none => b
  | some s => if s = "" then b else s

/-- JS `a || b` where both sides are optional strings and the result is used
as an optional value. -/
def jsOrOpt (a b : Option String) : Option String :=
  match a with
  | none => b
  | some s => if s = "" then b else some s

/-! ## Association lists modelling JS `Map` objects (insertion ordered) -/

def alGet (m : List (String × ℤ)) (k : String) : Option ℤ :=
  (m.find? (fun p => p.1 = k)).map (·.2)

def alGetD (m : List (String × ℤ)) (k : String) (d : ℤ) : ℤ := (alGet m k).getD d

def alSet (m : List (String × ℤ)) (k : String) (v : ℤ) : List (String × ℤ) :=
  if m.any (fun p => p.1 = k) then
    m.map (fun p => if p.1 = k then (k, v) else p)
  else m ++ [(k, v)]

def alBump (m : List (String × ℤ)) (k : String) : List (String × ℤ) :=
  alSet m k (1 + alGetD m k 0)

def alDel (m : List (String × ℤ)) (k : String) : List (String × ℤ) :=
  m.filter (fun p => ¬ (p.1 = k))

def ssMem (s : List String) (k : String) : Bool := s.any (· = k)

def ssAdd (s : List String) (k : String) : List String :=
  if ssMem s k then s else s ++ [k]

end TB

namespace TB

/-! ## Geo estimator (src/lib/geo.ts) -/

/-- Borough labels produced by `inferBorough` (the source uses string
literals; a closed enumeration is equivalent). -/
inductive Borough | manhattan | brooklyn | queens | bronx | staten
deriving DecidableEq, Repr

/-- Apostrophe character (U+0027), built numerically. -/
def apos : Char := Char.ofNat 39

/-- Right single quotation mark (U+2019), built numerically. -/
def rsq : Char := Char.ofNat 8217

def hellsKitchenA : List Char := "hell".data ++ [apos] ++ "s kitchen".data
def hellsKitchenB : List Char := "hell".data ++ [rsq] ++ "s kitchen".data

def queensTokens : List (List Char) :=
  ["queens".data, "astoria".data, "long island city".data, "lic".data,
   "jackson heights".data, "flushing".data]

def brooklynTokens : List (List Char) :=
  ["brooklyn".data, "williamsburg".data, "greenpoint".data, "bushwick".data,
   "bed-stuy".data, "bedford stuyvesant".data, "park slope".data,
   "prospect heights".data, "red hook".data, "dumbo".data,
   "downtown brooklyn".data]

def manhattanTokens : List (List Char) :=
  ["manhattan".data, "midtown".data, "upper east side".data,
   "upper west side".data, "harlem".data, "washington heights".data,
   "inwood".data, "village".data, "soho".data, "tribeca".data,
   "financial district".data, "battery park".data, "lincoln square".data,
   hellsKitchenA, hellsKitchenB, "chelsea".data, "flatiron".data,
   "times square".data, "gramercy".data, "east village".data,
   "west village".data]

/-- Embedding of `inferBorough` from src/lib/geo.ts (ordered regex tests on
the lower-cased location). -/
def inferBorough (loc : String) : Option Borough :=
  if loc = "" then none
  else
    let l := lcs loc.data
    if wbContains l "bronx".data then some .bronx
    else if wbContains l "staten island".data then some .staten
    else if anyWb l queensTokens then some .queens
    else if anyWb l brooklynTokens then some .brooklyn
    else if anyWb l manhattanTokens then some .manhattan
    else none

/-- Embedding of `fallbackTravelEstimate` from src/lib/geo.ts. -/
def fallbackTravelEstimate (aLoc bLoc : String) : ℤ :=
  if aLoc = "" ∨ bLoc = "" then 22
  else
    let a := lcs aLoc.data
    let b := lcs bLoc.data
    let boroughA := inferBorough aLoc
    let boroughB := inferBorough bLoc
    if boroughA.isSome ∧ boroughB.isSome ∧ boroughA ≠ boroughB then 28
    else if containsCL a "village".data ∧ containsCL b "village".data then 14
    else if containsCL a "midtown".data ∧ containsCL b "midtown".data then 14
    else if containsCL a "harlem".data ∨ containsCL b "harlem".data then 26
    else if containsCL a "queens".data ∨ containsCL b "queens".data then 32
    else if containsCL a "brooklyn".data ∨ containsCL b "brooklyn".data then 28
    else 20

/-- The `CENTROIDS` gazetteer from src/lib/geo.ts, in source order. -/
def CENTROIDS : List (String × ℚ × ℚ) :=
  [("Lower East Side", 40.7179, -73.9893),
   ("Upper West Side", 40.7870, -73.9754),
   ("Upper East Side", 40.7736, -73.9566),
   ("Midtown", 40.7549, -73.9840),
   ("Midtown South", 40.7489, -73.9867),
   ("Times Square", 40.7580, -73.9855),
   ("Greenwich Village", 40.7336, -74.0027),
   ("West Village", 40.7358, -74.0036),
   ("East Village", 40.7265, -73.9815),
   ("SoHo", 40.7233, -74.0030),
   ("NoHo", 40.7272, -73.9922),
   ("Nolita", 40.7236, -73.9950),
   ("Tribeca", 40.7163, -74.0086),
   ("Chinatown", 40.7158, -73.9970),
   ("Flatiron", 40.7411, -73.9897),
   ("Union Square", 40.7359, -73.9911),
   ("Chelsea", 40.7465, -74.0014),
   ("Chelsea Market", 40.7423, -74.0060),
   ("Chelsea / Hudson Yards", 40.7532, -74.0010),
   ("Hudson Yards", 40.7540, -74.0027),
   ("Meatpacking", 40.7409, -74.0086),
   ("Rockefeller Center", 40.7587, -73.9787),
   ("Central Park", 40.7829, -73.9654),
   ("Harlem", 40.8116, -73.9465),
   ("Washington Heights", 40.8517, -73.9361),
   ("Financial District", 40.7075, -74.0113),
   ("Battery Park City", 40.7115, -74.0153),
   ("Lower Manhattan", 40.7073, -74.0113),
   ("DUMBO", 40.7033, -73.9881),
   ("Brooklyn Heights", 40.6960, -73.9967),
   ("Downtown Brooklyn", 40.6943, -73.9850),
   ("Williamsburg", 40.7081, -73.9571),
   ("Greenpoint", 40.7293, -73.9547),
   ("Bushwick", 40.6958, -73.9171),
   ("Bed-Stuy", 40.6872, -73.9418),
   ("Park Slope", 40.6720, -73.9816),
   ("Prospect Heights", 40.6796, -73.9663),
   ("Prospect Park", 40.6602, -73.9690),
   ("Long Island City", 40.7440, -73.9488),
   ("Astoria", 40.7644, -73.9235),
   ("Jackson Heights", 40.7557, -73.8831),
   ("Flushing", 40.7675, -73.8331),
   ("Queensboro Plaza", 40.7506, -73.9407),
   ("Bronx", 40.8448, -73.8648),
   ("Staten Island", 40.5795, -74.1502)]

/-- Embedding of `centroidFor` from src/lib/geo.ts: exact key lookup first,
then the first entry related to the query by substring containment in either
direction. -/
def centroidFor (loc : String) : Option (ℚ × ℚ) :=
  if loc = "" then none
  else
    match CENTROIDS.find? (fun e => e.1 = loc) with
    | some e => some e.2
    | none =>
      let l := lcs loc.data
      (CENTROIDS.find? (fun e =>
        let k := lcs e.1.data
        containsCL l k ∨ containsCL k l)).map (·.2)

/-- Embedding of `haversineKm` from src/lib/geo.ts.  JS `Math` float
operations are modelled by exact real arithmetic. -/
noncomputable def haversineKm (a b : ℚ × ℚ) : ℝ :=
  let R : ℝ := 6371
  let dLat : ℝ := ((b.1 : ℝ) - (a.1 : ℝ)) * Real.pi / 180
  let dLon : ℝ := ((b.2 : ℝ) - (a.2 : ℝ)) * Real.pi / 180
  let lat1 : ℝ := (a.1 : ℝ) * Real.pi / 180
  let lat2 : ℝ := (b.1 : ℝ) * Real.pi / 180
  let sinHalfLat := Real.sin (dLat / 2)
  let sinHalfLon := Real.sin (dLon / 2)
  let component := sinHalfLat * sinHalfLat +
    sinHalfLon * sinHalfLon * Real.cos lat1 * Real.cos lat2
  let clamped := min 1 (max 0 component)
  let c := 2 * Real.arcsin (Real.sqrt clamped)
  R * c

/-- Embedding of `walkingMinutesKm` from src/lib/geo.ts: about 12.5 min/km,
clamped to the 8..50 range after rounding. -/
noncomputable def walkingMinutesKm (km : ℝ) : ℤ :=
  max 8 (min 50 (round (km * 12.5)))

open Classical in
/-- Embedding of `travelMinutesBetween` from src/lib/geo.ts.  The real-valued
distance `km` is always finite in the model, so the `!isFinite(km)` disjunct
of the source's guard is dropped. -/
noncomputable def travelMinutesBetween (aLoc bLoc : String) : ℤ :=
  if aLoc = "" ∨ bLoc = "" then fallbackTravelEstimate aLoc bLoc
  else
    match centroidFor aLoc, centroidFor bLoc with
    | some a, some b =>
      let km := haversineKm a b
      if km < 0 then fallbackTravelEstimate aLoc bLoc
      else
        let boroughA := inferBorough aLoc
        let boroughB := inferBorough bLoc
        let crossBorough : Bool :=
          boroughA.isSome ∧ boroughB.isSome ∧ boroughA ≠ boroughB
        if km ≤ 2.4 ∧ crossBorough = false then walkingMinutesKm km
        else if crossBorough then min (max (round ((14 : ℝ) + km * 4.8)) 24) 55
        else
          let walking := walkingMinutesKm km
          let transit := round ((8 : ℝ) + km * 5.5)
          min (max transit (max 12 walking)) 70
    | _, _ => fallbackTravelEstimate aLoc bLoc

/-- Embedding of `minutesTravel` from src/lib/planner.ts.  The embedded
`travelMinutesBetween` is total and finite, so the source's `catch`-and-
heuristic tail (which only runs if the estimator throws or returns a
non-finite number) is unreachable and omitted. -/
noncomputable def minutesTravel (fromLoc toLoc : String) : ℤ :=
  if fromLoc = "" ∨ toLoc = "" ∨ fromLoc = toLoc then 0
  else max 0 (travelMinutesBetween fromLoc toLoc)

end TB

namespace TB

/-! ## Planner data model and small helpers (src/lib/planner.ts) -/

inductive Pace | chill | balanced | maxPace
deriving DecidableEq, Repr

inductive Mode | walk | transit
deriving DecidableEq, Repr

structure PeriodPoint where
  day : Option ℤ := none
  time : String := ""
deriving DecidableEq, Repr

structure Period where
  openPt : Option PeriodPoint := none
  closePt : Option PeriodPoint := none
deriving DecidableEq, Repr

/-- Hours payload (`PlaceHours` from src/lib/providers/hours.ts).  Absent
arrays behave exactly like empty ones in every use site (`?.length` guards),
so they are modelled as `[]`. -/
structure PlaceHours where
  openNow : Option Bool := none
  weekdayText : List String := []
  periods : List Period := []
deriving DecidableEq, Repr

structure Place where
  name : String
  category : Option String := none
  neighborhood : Option String := none
  duration_min : Option ℤ := none
  duration_max : Option ℤ := none
  vibe_tags : List String := []
  energy_tags : List String := []
  description : Option String := none
  location : Option String := none
  url : Option String := none
  lat : Option ℚ := none
  lng : Option ℚ := none
  hours : Option PlaceHours := none
deriving DecidableEq, Repr

structure Scheduled where
  title : String
  location : Option String := none
  description : String := ""
  category : Option String := none
  startMin : ℤ
  endMin : ℤ
  isAnchor : Bool := false
  url : Option String := none
  travelMinFromPrev : Option ℤ := none
  travelModeFromPrev : Option Mode := none
  lat : Option ℚ := none
  lng : Option ℚ := none
deriving DecidableEq, Repr

structure CandidateStop where
  title : String
  location : Option String := none
  description : Option String := none
  category : String
  duration : ℤ
  url : Option String := none
  sourcePlaceName : Option String := none
  lat : Option ℚ := none
  lng : Option ℚ := none
deriving DecidableEq, Repr

structure LockObj where
  title : String
  location : Option String := none
  description : Option String := none
  time : Option String := none
  start : Option String := none
  duration_min : Option ℤ := none
  category : Option String := none
  url : Option String := none
deriving DecidableEq, Repr

/-! ### Day/time constants -/

def BREAKFAST_EARLIEST_MIN : ℤ := 9 * 60
def BREAKFAST_LATEST_MIN : ℤ := 10 * 60
def BRUNCH_START_MIN : ℤ := 11 * 60
def BRUNCH_END_MIN : ℤ := 13 * 60
def LUNCH_START_MIN : ℤ := 11 * 60 + 30
def LUNCH_WINDOW_END : ℤ := 14 * 60
def DINNER_START_MIN : ℤ := 18 * 60
def AFTERNOON_START_MIN : ℤ := 13 * 60
def AFTERNOON_END_MIN : ℤ := 17 * 60
def GENERAL_ACTIVITY_START_MIN : ℤ := 9 * 60
def DAY_START_MIN : ℤ := BREAKFAST_EARLIEST_MIN
def DAY_END_MIN : ℤ := 22 * 60
def FIVE_PM_MIN : ℤ := 17 * 60
def MIN_LUNCH_DURATION : ℤ := 60
def MIN_ANCHOR_DURATION : ℤ := 60
def MINUTES_IN_DAY : ℤ := 24 * 60
def MINUTES_IN_WEEK : ℤ := MINUTES_IN_DAY * 7
def MAX_AREA_VISITS : ℤ := 3
def MAX_AREA_RUN : ℤ := 2
def AREA_BOUNCE_PENALTY : ℚ := 28
def TRAVEL_WEIGHT : ℚ := 0.9
def MAX_NON_ANCHOR_TRAVEL_MIN : ℤ := 60
def MAX_ANCHOR_TRAVEL_MIN : ℤ := 120
def MIN_FLEX_BLOCK_MIN : ℤ := 20
def LARGE_GAP_MIN : ℤ := 75
def NEIGHBORHOOD_LOCK_RUN : ℤ := 5
def DAILY_FOOD_CAP : ℤ := 3

/-- The `DAYPART_WINDOWS` table, in source (insertion) order. -/
def DAYPART_WINDOWS : List (String × ℤ × ℤ) :=
  [("breakfast", BREAKFAST_EARLIEST_MIN, BREAKFAST_LATEST_MIN),
   ("morning", BREAKFAST_EARLIEST_MIN, 11 * 60),
   ("brunch", BRUNCH_START_MIN, BRUNCH_END_MIN),
   ("lunch", LUNCH_START_MIN, LUNCH_WINDOW_END),
   ("afternoon", AFTERNOON_START_MIN, FIVE_PM_MIN),
   ("dinner", DINNER_START_MIN, 20 * 60 + 30),
   ("evening", 17 * 60, 21 * 60 + 30),
   ("drinks", 20 * 60, 23 * 60)]

def BAR_CATEGORIES : List String :=
  ["bar", "drinks", "cocktails", "wine bar", "speakeasy", "tavern", "rooftop"]

def FOOD_CATEGORIES : List String :=
  ["breakfast", "brunch", "lunch", "dinner", "snack", "coffee", "market"]

def MORNING_MEAL_CATEGORIES : List String := ["breakfast", "brunch", "coffee"]

def CATEGORY_COUNT_CAP : String → Option ℤ := fun k =>
  if k = "breakfast" ∨ k = "brunch" ∨ k = "lunch" ∨ k = "dinner" ∨ k = "snack"
      ∨ k = "coffee" ∨ k = "market" ∨ k = "bar" ∨ k = "drinks"
  then some 1 else none

def MEAL_CATEGORY_BASE : List String :=
  ["breakfast", "brunch", "lunch", "dinner", "dining", "reservation", "seafood",
   "italian", "french", "mediterranean", "steakhouse", "bbq", "pizza",
   "new-american", "new american", "american", "tapas", "sushi", "omakase",
   "dinner-or-brunch", "dinner or brunch"]

def chefsTable : String :=
  String.mk ("chef".data ++ [apos] ++ "s-table".data)

def MEAL_VIBE_TAGS : List String :=
  ["breakfast", "brunch", "lunch", "dinner", "reservation", "tasting-menu",
   "omakase", "fine-dining", chefsTable, "prix-fixe", "pre-theater",
   "dinner-or-brunch", "dinner or brunch"]

/-- Plain word-boundary tokens of the first meal-category regex. -/
def mealRe1Tokens : List (List Char) :=
  ["restaurant".data, "trattoria".data, "osteria".data, "ristorante".data,
   "brasserie".data, "bistro".data]

/-- Plain word-boundary tokens of the second meal-category regex (the
patterns with `\s*` or `[-\s]?` gaps are handled separately below). -/
def mealRe2Tokens : List (List Char) :=
  ["italian".data, "french".data, "spanish".data, "mexican".data, "thai".data,
   "korean".data, "indian".data, "japanese".data, "chinese".data,
   "vietnamese".data, "mediterranean".data, "israeli".data, "greek".data,
   "peruvian".data, "omakase".data, "sushi".data, "ramen".data, "noodle".data,
   "yakitori".data, "tapas".data, "taqueria".data, "cantina".data,
   "steak".data, "steakhouse".data, "seafood".data, "bbq".data,
   "barbecue".data, "american".data]

def mealRe3Tokens : List (List Char) :=
  ["brunch".data, "lunch".data, "dinner".data, "supper".data]

/-- Matcher for two word-boundary-delimited tokens separated by a flexible
middle, modelling patterns such as `\bnew\s*american\b` and
`\bprix[-\s]?fixe\b`; `midOpts` lists the admissible remainders after the
middle is consumed. -/
def gapSeqAt (midOpts : List Char → List (List Char)) (t1 t2 : List Char)
    (prev : Option Char) (hay : List Char) : Bool :=
  match hay with
  | [] => false
  | c :: rest =>
    ((¬ isWordOpt prev) ∧ hasPrefixCL t1 (c :: rest) ∧
      ((midOpts ((c :: rest).drop t1.length)).any (fun r2 =>
        hasPrefixCL t2 r2 ∧ ¬ isWordOpt (headOpt (r2.drop t2.length)))))
    ∨ gapSeqAt midOpts t1 t2 (some c) rest

def starSpacesMid (r : List Char) : List (List Char) := [dropLeadingSpaces r]

def optDashSpaceMid (r : List Char) : List (List Char) :=
  match r with
  | [] => [r]
  | c :: r2 => if c = '-' ∨ isSpaceChar c then [r2, r] else [r]

/-- Test of `MEAL_CATEGORY_REGEXES` against an (already lower-cased) category
string. -/
def mealRegexTest (c : List Char) : Bool :=
  anyWb c mealRe1Tokens ∨
  (anyWb c mealRe2Tokens ∨
    gapSeqAt starSpacesMid "new".data "american".data none c ∨
    gapSeqAt optDashSpaceMid "prix".data "fixe".data none c ∨
    gapSeqAt starSpacesMid "tasting".data "menu".data none c) ∨
  anyWb c mealRe3Tokens

def isBarCategory (cat : Option String) : Bool :=
  match cat with
  | none => false
  | some c => if c = "" then false else BAR_CATEGORIES.contains (lower c)

def isFoodCategory (cat : Option String) : Bool :=
  match cat with
  | none => false
  | some c => if c = "" then false else FOOD_CATEGORIES.contains (lower c)

/-- Embedding of `isMealCategory` (category-string membership, three regexes,
then meal-flavoured vibe tags of the optional place). -/
def isMealCategory (category : Option String) (place : Option Place) : Bool :=
  let c := lower (jsOrO category (jsOrO (place.bind (·.category)) ""))
  if c = "" then false
  else if MEAL_CATEGORY_BASE.contains c then true
  else if mealRegexTest c.data then true
  else match place with
    | none => false
    | some p => p.vibe_tags.any (fun tag => MEAL_VIBE_TAGS.contains (lower tag))

def isMorningMealCategory (category : Option String) (place : Option Place) : Bool :=
  let c := lower (jsOrO category (jsOrO (place.bind (·.category)) ""))
  if MORNING_MEAL_CATEGORIES.contains c then true
  else match place with
    | none => false
    | some p => p.vibe_tags.any (fun tag => MORNING_MEAL_CATEGORIES.contains (lower tag))

def dayFoodCount (scheduled : List Scheduled) : ℤ :=
  scheduled.foldl (fun n s => n + (if isFoodCategory s.category then 1 else 0)) 0

def lunchyTokens : List (List Char) :=
  ["pizza".data, "slice".data, "burger".data, "sandwich".data, "deli".data,
   "tacos".data, "ramen".data, "noodles".data, "poke".data, "salad".data]

/-- Embedding of `isLunchy`. -/
def isLunchy (p : Place) (cat : String) : Bool :=
  let c := lower cat
  if c = "lunch" then true
  else anyWb (lcs p.name.data) lunchyTokens

/-! ### Durations -/

def baseDuration (category : Option String) : ℤ :=
  let C := lower (category.getD "")
  if C = "breakfast" then 45 else if C = "brunch" then 90
  else if C = "coffee" then 30 else if C = "food" then 60
  else if C = "lunch" then 60 else if C = "dinner" then 120
  else if C = "bar" then 60 else if C = "drinks" then 60
  else if C = "show" then 120 else if C = "museum" then 90
  else if C = "gallery" then 60 else if C = "park" then 75
  else if C = "walk" then 60 else if C = "shopping" then 20
  else if C = "market" then 60 else if C = "landmark" then 45
  else if C = "view" then 45 else if C = "snack" then 25
  else if C = "quick bite" then 30 else if C = "quick-bite" then 30
  else 60

def catDurationOverride (k : String) : Option ℤ :=
  if k = "breakfast" then some 45 else if k = "brunch" then some 90
  else if k = "lunch" then some 60 else if k = "dinner" then some 120
  else if k = "quick bite" then some 30 else if k = "quick-bite" then some 30
  else if k = "shopping" then some 20 else none

structure PaceMult where
  food : ℚ
  nonFood : ℚ
  coffee : ℚ

def PACE_DURATION_MULTIPLIER : Pace → PaceMult
  | .chill => ⟨1.4, 1.35, 1.2⟩
  | .balanced => ⟨1, 1, 1⟩
  | .maxPace => ⟨0.8, 0.7, 0.75⟩

def durationMultiplierFor (pace : Pace) (category : Option String) : ℚ :=
  let cfg := PACE_DURATION_MULTIPLIER pace
  let key := lower (category.getD "")
  if key = "coffee" then cfg.coffee
  else if isFoodCategory (some key) ∨ key = "quick bite" ∨ key = "quick-bite"
    then cfg.food
  else cfg.nonFood

def minFor (category : Option String) (pace : Pace) : ℤ :=
  max MIN_FLEX_BLOCK_MIN
    (round ((baseDuration category : ℚ) * durationMultiplierFor pace category))

/-- JS `desired || place.category` where `desired` is a plain string used as
an optional argument downstream. -/
def jsOrSO (a : String) (b : Option String) : Option String :=
  if a = "" then b else some a

/-- Embedding of `plannedDurationMinutes`. -/
def plannedDurationMinutes (place : Place) (category : String) (pace : Pace) : ℤ :=
  let desired := lower (jsOr category (jsOrO place.category ""))
  let dataset := place.duration_min
  let override := (catDurationOverride desired).orElse
    (fun _ => catDurationOverride (lower (jsOrO place.category "")))
  let datasetMax := place.duration_max
  let baseDur : ℤ :=
    match dataset with
    | some d => d
    | none =>
      match override with
      | some o => o
      | none => baseDuration (jsOrSO desired place.category)
  let multiplier := durationMultiplierFor pace (some desired)
  let target0 := round ((baseDur : ℚ) * multiplier)
  let minimum := minFor (jsOrSO desired place.category) pace
  let target1 := match datasetMax with
    | some dm => min target0 dm
    | none => target0
  let target2 := match override with
    | some o => min target1 o
    | none => target1
  max target2 (max minimum MIN_FLEX_BLOCK_MIN)

/-! ### Travel feasibility and modes -/

/-- Embedding of `recommendedTravelMode`; finite `ℤ` minutes make the
`!isFinite` disjunct vacuous. -/
def recommendedTravelMode (minutes : ℤ) : Mode :=
  if minutes ≤ 0 then .walk
  else if minutes ≤ 17 then .walk else .transit

/-- Embedding of `travelWithinLimit` from src/lib/planner.ts (lines 525-529):
non-positive travel is always within limit, anchor destinations are always
within limit, and otherwise the non-anchor ceiling of 60 minutes applies. -/
def travelWithinLimit (minutes : ℤ) (destinationIsAnchor : Bool) : Bool :=
  if minutes ≤ 0 then true
  else if destinationIsAnchor then true
  else minutes ≤ MAX_NON_ANCHOR_TRAVEL_MIN

/-- Embedding of the output-assembly travel clamp from `plan`
(src/lib/planner.ts lines 3053-3056). -/
def clampedOutputTravel (prevIsAnchor currIsAnchor : Bool) (travelMin : ℤ) : ℤ :=
  let travelLimit :=
    if prevIsAnchor ∨ currIsAnchor then MAX_ANCHOR_TRAVEL_MIN
    else MAX_NON_ANCHOR_TRAVEL_MIN
  min (max 0 travelMin) travelLimit

def overlapsWindow (startMin endMin windowStart windowEnd : ℤ) : Bool :=
  windowStart < endMin ∧ startMin < windowEnd

/-! ### Area keys -/

def mvsTokens : List (List Char) :=
  ["multiple".data, "various".data, "several".data]

def locTailOk : List Char → Bool
  | 's' :: r => ¬ isWordOpt (headOpt r)
  | r => ¬ isWordOpt (headOpt r)

def spacesThenLoc : List Char → Bool
  | [] => false
  | c :: r =>
    isSpaceChar c ∧
      (let r2 := dropLeadingSpaces r
       hasPrefixCL "location".data r2 ∧ locTailOk (r2.drop 8))

/-- Scan modelling `/\b(multiple|various|several)\s+locations?\b/.test`. -/
def mvsLocScanAt (prev : Option Char) (l : List Char) : Bool :=
  match l with
  | [] => false
  | c :: rest =>
    ((¬ isWordOpt prev) ∧ (mvsTokens.any (fun t =>
        hasPrefixCL t (c :: rest) ∧ spacesThenLoc ((c :: rest).drop t.length))))
    ∨ mvsLocScanAt (some c) rest

def mvsLocContains (l : List Char) : Bool := mvsLocScanAt none l

def splitGo (seps : List Char) (acc : List Char) : List Char → List (List Char)
  | [] => [acc.reverse]
  | c :: r =>
    if seps.contains c then acc.reverse :: splitGo seps [] r
    else splitGo seps (c :: acc) r

def splitOnChars (l seps : List Char) : List (List Char) := splitGo seps [] l

/-- Global word-boundary deletion of the given token variants (listed
longest first, modelling greedy alternation), used for the
`replace(/\bnew york(?: city)?\b/g, '')` and `\bnyc\b` steps. -/
def stripWBGo (variants : List (List Char)) (prev : Option Char)
    (l : List Char) (fuel : ℕ) : List Char :=
  match fuel with
  | 0 => l
  | fuel' + 1 =>
    match l with
    | [] => []
    | c :: rest =>
      match variants.find? (fun t =>
          decide ((¬ isWordOpt prev) ∧ hasPrefixCL t (c :: rest) ∧
            ¬ isWordOpt (headOpt ((c :: rest).drop t.length)))) with
      | some t => stripWBGo variants (lastOpt t) ((c :: rest).drop t.length) fuel'
      | none => c :: stripWBGo variants (some c) rest fuel'

/-- Embedding of `areaKeyFromString`. -/
def areaKeyFromString (raw : Option String) : Option String :=
  match raw with
  | none => none
  | some r0 =>
    if r0 = "" then none
    else
      let s := lcs r0.data
      if trimCL s = [] then none
      else if mvsLocContains s then none
      else
        let s1 := stripWBGo ["new york city".data, "new york".data] none s s.length
        let s2 := stripWBGo ["nyc".data] none s1 s1.length
        let parts := splitOnChars s2 [';', '/']
        let firstSplit := if parts.headD [] = [] then s2 else parts.headD []
        let segment := trimCL ((splitOnChars firstSplit [',']).headD firstSplit)
        let cleaned := trimCL (collapseRuns (fun c => ¬ isLowerAlnum c) segment)
        if cleaned = [] then none else some (String.mk cleaned)

def areaKeyFromPlace (p : Place) : Option String :=
  (areaKeyFromString p.neighborhood).orElse (fun _ => areaKeyFromString p.location)

def areaKeyFromStop (s : Scheduled) : Option String := areaKeyFromString s.location

/-- Embedding of `normName`. -/
def normName (s : String) : String :=
  String.mk (trimCL (collapseRuns (fun c => ¬ isLowerAlnum c) (lcs s.data)))

/-- Embedding of the `normalizeLocation` helper local to
`recomputeTravelMetadata`. -/
def normalizeLocation (v : Option String) : String :=
  String.mk (trimCL (collapseRuns isSpaceChar (lcs ((v.getD "").data))))

end TB

namespace TB

/-! ## Dates (model of `new Date(dateISO + "T12:00:00").getDay()`) -/

def digitVal (c : Char) : ℕ := c.toNat - 48

def allDigits (l : List Char) : Bool := l.all (fun c => '0' ≤ c ∧ c ≤ '9')

def natOfDigits (l : List Char) : ℕ :=
  l.foldl (fun acc c => acc * 10 + digitVal c) 0

def isLeapYear (y : ℕ) : Bool := (y % 4 = 0 ∧ ¬ y % 100 = 0) ∨ y % 400 = 0

def daysInMonth (y m : ℕ) : ℕ :=
  if m = 2 then (if isLeapYear y then 29 else 28)
  else if m = 4 ∨ m = 6 ∨ m = 9 ∨ m = 11 then 30
  else 31

/-- Calendar parts of a well-formed `yyyy-mm-dd` string; ill-formed strings
give `none`, modelling the `Invalid Date`/`NaN` guards in the source. -/
def parseISODate (s : String) : Option (ℕ × ℕ × ℕ) :=
  match splitOnChars s.data ['-'] with
  | [y, m, d] =>
    if y.length = 4 ∧ m.length = 2 ∧ d.length = 2 ∧
        allDigits y ∧ allDigits m ∧ allDigits d then
      let yy := natOfDigits y
      let mm := natOfDigits m
      let dd := natOfDigits d
      if 1 ≤ mm ∧ mm ≤ 12 ∧ 1 ≤ dd ∧ dd ≤ daysInMonth yy mm then
        some (yy, mm, dd)
      else none
    else none
  | _ => none

def sakamotoT : List ℕ := [0, 3, 2, 5, 0, 3, 5, 1, 4, 6, 2, 4]

/-- Day of week with Sunday = 0 (Sakamoto's method), agreeing with JS
`Date.prototype.getDay` on valid Gregorian dates. -/
def dayOfWeek (y m d : ℕ) : ℕ :=
  let y' := if m < 3 then y - 1 else y
  (y' + y' / 4 - y' / 100 + y' / 400 + sakamotoT.getD (m - 1) 0 + d) % 7

def jsGetDay (dateISO : String) : Option ℤ :=
  (parseISODate dateISO).map (fun t => (dayOfWeek t.1 t.2.1 t.2.2 : ℤ))

/-! ## Hours oracle (src/lib/planner.ts, `isLikelyClosedDuring` et al.) -/

def digitsPrefixNat (l : List Char) : Option ℕ :=
  let ds := l.takeWhile (fun c => '0' ≤ c ∧ c ≤ '9')
  if ds = [] then none else some (natOfDigits ds)

/-- Model of JS `parseInt(s, 10)` restricted to its digit-prefix behaviour
(`none` models `NaN`). -/
def parseIntPrefix (l : List Char) : Option ℤ :=
  let l1 := dropLeadingSpaces l
  match l1 with
  | '-' :: r => (digitsPrefixNat r).map (fun n => -(n : ℤ))
  | '+' :: r => (digitsPrefixNat r).map (fun n => (n : ℤ))
  | r => (digitsPrefixNat r).map (fun n => (n : ℤ))

/-- The `toMinutes` helper of `isClosedByPeriods` ("0900"-style strings). -/
def toMinutesHHMM (time : String) : ℤ :=
  if time = "" then 0
  else
    let h := (parseIntPrefix (time.data.take 2)).getD 0
    let sliced := (time.data.drop 2).take 2
    let m := (parseIntPrefix (if sliced = [] then "0".data else sliced)).getD 0
    h * 60 + m

def normalizeDay (d : ℤ) : ℤ := ((d % 7) + 7) % 7

/-- Absolute week-minute window of one period entry (`none` models the
`continue` on entries without a numeric `open.day`). -/
def periodWindow (p : Period) : Option (ℤ × ℤ) :=
  match p.openPt with
  | none => none
  | some op =>
    match op.day with
    | none => none
    | some d =>
      let openDay := normalizeDay d
      let openMin := toMinutesHHMM op.time
      let openAbs := openDay * MINUTES_IN_DAY + openMin
      let closeAbs :=
        match p.closePt with
        | some cl =>
          let closeDay := match cl.day with
            | some cd => normalizeDay cd
            | none => openDay
          let closeMin := toMinutesHHMM cl.time
          let c0 := closeDay * MINUTES_IN_DAY + closeMin
          if c0 > openAbs then c0
          else c0 + MINUTES_IN_DAY * ((openAbs - c0) / MINUTES_IN_DAY + 1)
        | none =>
          let c0 := openDay * MINUTES_IN_DAY + MINUTES_IN_DAY
          if c0 ≤ openAbs then openAbs + MINUTES_IN_DAY else c0
      some (openAbs, closeAbs)

def weekOffsets : List ℤ := [-MINUTES_IN_WEEK, 0, MINUTES_IN_WEEK]

/-- Loop body of `isClosedByPeriods`: `some false` as soon as a period window
overlaps the target (possibly in an adjacent week); afterwards `some true`
when at least one usable interval was seen and none overlapped. -/
def isClosedGo (ts te : ℤ) : List Period → Bool → Option Bool
  | [], saw => if saw then some true else none
  | p :: rest, saw =>
    match periodWindow p with
    | none => isClosedGo ts te rest saw
    | some w =>
      if weekOffsets.any (fun off => ¬ (w.2 + off ≤ ts) ∧ ¬ (w.1 + off ≥ te)) then
        some false
      else isClosedGo ts te rest true

/-- Embedding of `isClosedByPeriods`. -/
def isClosedByPeriods (periods : List Period) (startMin endMin : ℤ)
    (dateISO : String) : Option Bool :=
  if periods = [] then none
  else
    match jsGetDay dateISO with
    | none => none
    | some targetDay =>
      isClosedGo (targetDay * MINUTES_IN_DAY + startMin)
        (targetDay * MINUTES_IN_DAY + endMin) periods false

/-! ### Weekday-text parsing -/

def dayNames : List String :=
  ["Sunday", "Monday", "Tuesday", "Wednesday", "Thursday", "Friday", "Saturday"]

/-- The weekday line whose lower-cased text starts with the target day name. -/
def findDayLine (weekdayText : List String) (js : ℤ) : Option String :=
  match dayNames.get? js.toNat with
  | none => none
  | some nm =>
    weekdayText.find? (fun t => hasPrefixCL (lcs nm.data) (lcs t.data))

/-- En dash (U+2013), the dash used in Google weekday text ranges. -/
def enDash : Char := Char.ofNat 8211

/-- Greedy alternatives for `(\d{1,2})`: two digits first, then one. -/
def matchHour (l : List Char) : List (ℤ × List Char) :=
  match l with
  | d1 :: d2 :: r =>
    if d1.isDigit ∧ d2.isDigit then
      [(((digitVal d1 * 10 + digitVal d2 : ℕ) : ℤ), r), (((digitVal d1 : ℕ) : ℤ), d2 :: r)]
    else if d1.isDigit then [(((digitVal d1 : ℕ) : ℤ), d2 :: r)]
    else []
  | [d1] => if d1.isDigit then [(((digitVal d1 : ℕ) : ℤ), [])] else []
  | [] => []

/-- Alternatives for the optional `(?::(\d{2}))?` group (with-colon first,
absent-group second; an absent group captures minute 0). -/
def matchMMOpt (l : List Char) : List (ℤ × List Char) :=
  match l with
  | ':' :: m1 :: m2 :: r =>
    if m1.isDigit ∧ m2.isDigit then
      [(((digitVal m1 * 10 + digitVal m2 : ℕ) : ℤ), r), (0, ':' :: m1 :: m2 :: r)]
    else [(0, ':' :: m1 :: m2 :: r)]
  | _ => [(0, l)]

/-- Case-insensitive `(AM|PM)`; the boolean is `true` for PM. -/
def matchAmPm (l : List Char) : Option (Bool × List Char) :=
  match l with
  | a :: b :: r =>
    let la := lcChar a
    let lb := lcChar b
    if la = 'a' ∧ lb = 'm' then some (false, r)
    else if la = 'p' ∧ lb = 'm' then some (true, r)
    else none
  | _ => none

/-- All parses of one clock token `(\d{1,2})(?::(\d{2}))?\s*(AM|PM)` in
backtracking order. -/
def matchClock (l : List Char) : List ((ℤ × ℤ × Bool) × List Char) :=
  (matchHour l).flatMap (fun hr =>
    (matchMMOpt hr.2).flatMap (fun mr =>
      let r3 := dropLeadingSpaces mr.2
      match matchAmPm r3 with
      | some (pm, r4) => [((hr.1, mr.1, pm), r4)]
      | none => []))

/-- The `toMin` conversion used on weekday-text ranges. -/
def clockToMin (h m : ℤ) (pm : Bool) : ℤ :=
  let h1 := h % 12
  let h2 := if pm then h1 + 12 else h1
  h2 * 60 + m

/-- Leftmost-greedy match of one full range token at the current position:
`clock \s* [–-] \s* clock`. -/
def matchRangeAt (l : List Char) : Option ((ℤ × ℤ) × List Char) :=
  (matchClock l).findSome? (fun cr =>
    let r2 := dropLeadingSpaces cr.2
    match r2 with
    | d :: r3 =>
      if d = enDash ∨ d = '-' then
        let r4 := dropLeadingSpaces r3
        match matchClock r4 with
        | [] => none
        | c2 :: _ =>
          some ((clockToMin cr.1.1 cr.1.2.1 cr.1.2.2,
                 clockToMin c2.1.1 c2.1.2.1 c2.1.2.2), c2.2)
      else none
    | [] => none)

/-- Fueled `matchAll` scan: on a match continue after it, otherwise advance
one character. -/
def scanRanges : List Char → ℕ → List (ℤ × ℤ)
  | _, 0 => []
  | l, fuel + 1 =>
    match l with
    | [] => []
    | c :: rest =>
      match matchRangeAt (c :: rest) with
      | some (w, r) => w :: scanRanges r fuel
      | none => scanRanges rest fuel

/-- Up to 4 parsed hour ranges of one weekday-text line (the source's
`matchAll(...).slice(0, 4)`). -/
def extractRanges (line : String) : List (ℤ × ℤ) :=
  (scanRanges line.data line.data.length).take 4

/-- Embedding of `approximateHoursForCategory`. -/
def approximateHoursForCategory (category : String) : Option (List (ℤ × ℤ)) :=
  if category = "" then none
  else
    let c := lower category
    if c = "breakfast" then some [(BREAKFAST_EARLIEST_MIN, BREAKFAST_LATEST_MIN)]
    else if c = "coffee" then some [(BREAKFAST_EARLIEST_MIN, BREAKFAST_LATEST_MIN)]
    else if c = "brunch" then some [(BRUNCH_START_MIN, BRUNCH_END_MIN)]
    else if c = "lunch" then some [(LUNCH_START_MIN, LUNCH_WINDOW_END)]
    else if c = "snack" then some [(12 * 60, 18 * 60)]
    else if c = "dinner" then some [(DINNER_START_MIN, 22 * 60 + 30)]
    else if c = "bar" ∨ c = "drinks" then
      some [(17 * 60, MINUTES_IN_DAY), (0, 2 * 60)]
    else if c = "museum" then some [(10 * 60, 17 * 60 + 30)]
    else if c = "gallery" then some [(11 * 60, 19 * 60)]
    else if c = "design" ∨ c = "boutique" ∨ c = "art" then some [(11 * 60, 19 * 60)]
    else if c = "park" ∨ c = "walk" ∨ c = "view" then some [(7 * 60, 20 * 60)]
    else if c = "market" then some [(9 * 60, 18 * 60)]
    else if c = "shopping" then some [(10 * 60, 21 * 60)]
    else if c = "show" then some [(18 * 60, 23 * 60 + 30)]
    else none

/-- Embedding of `isLikelyClosedDuring`: structured periods first, then the
weekday-text line for the target day (up to 4 parsed ranges), then the
category-approximate table; evidence-free cases return 0 (open). -/
def isLikelyClosedDuring (hours : Option PlaceHours) (category : String)
    (startMin endMin : ℤ) (dateISO : String) : ℤ :=
  let periodsPart : Option ℤ :=
    match hours with
    | some h =>
      if h.periods = [] then none
      else
        match isClosedByPeriods h.periods startMin endMin dateISO with
        | some b => some (if b then 2 else 0)
        | none => none
    | none => none
  match periodsPart with
  | some v => v
  | none =>
    let weekdayPart : Option ℤ :=
      match hours with
      | some h =>
        if h.weekdayText = [] then none
        else
          match jsGetDay dateISO with
          | none => none
          | some js =>
            match findDayLine h.weekdayText js with
            | none => none
            | some line =>
              let windows := extractRanges line
              if windows = [] then none
              else if windows.any (fun w =>
                  ¬ (endMin ≤ w.1) ∧ ¬ (startMin ≥ w.2)) then some 0
              else some 2
      | none => none
    match weekdayPart with
    | some v => v
    | none =>
      match approximateHoursForCategory category with
      | some approx =>
        if approx.any (fun w => ¬ (endMin ≤ w.1) ∧ ¬ (startMin ≥ w.2)) then 0
        else 1
      | none => 0

end TB

namespace TB

/-! ## Timeline recomputation (src/lib/planner.ts, `recomputeTravelMetadata`) -/

/-- The minimum spacing enforced between a pair of adjacent stops
(`baseMin` in `recomputeTravelMetadata`): 0 for a repeated title, 10 for
matching non-empty normalized locations, else 12. -/
def recomputeBaseMin (prev stop : Scheduled) : ℤ :=
  if prev.title = stop.title then 0
  else if ¬ normalizeLocation prev.location = "" ∧
           ¬ normalizeLocation stop.location = "" ∧
           normalizeLocation prev.location = normalizeLocation stop.location
    then 10
  else 12

/-- Arithmetic core of the per-pair travel computation of
`recomputeTravelMetadata`, over the already-evaluated gap, geometric estimate,
spacing floor and location/area comparison flags. -/
def recomputeTravelFor (gap estimate baseMin : ℤ)
    (locationsDiffer areasDiffer : Bool) : ℤ :=
  let travel0 := max gap estimate
  let travel1 := if travel0 < baseMin then baseMin else travel0
  if travel1 ≤ 0 then
    if locationsDiffer ∨ areasDiffer then
      max baseMin (if estimate = 0 then 12 else estimate)
    else max baseMin (max gap estimate)
  else travel1

/-- Travel enforced for one adjacent pair by `recomputeTravelMetadata`. -/
noncomputable def recomputeTravel (city : String) (prev stop : Scheduled) : ℤ :=
  recomputeTravelFor (max 0 (stop.startMin - prev.endMin))
    (minutesTravel (jsOrO prev.location city) (jsOrO stop.location city))
    (recomputeBaseMin prev stop)
    (decide (¬ normalizeLocation prev.location = normalizeLocation stop.location))
    (decide ((areaKeyFromString (some (jsOrO prev.location ""))).isSome ∧
      (areaKeyFromString (some (jsOrO stop.location ""))).isSome ∧
      ¬ areaKeyFromString (some (jsOrO prev.location "")) =
          areaKeyFromString (some (jsOrO stop.location ""))))

/-- Shift-and-record tail of the per-pair body: push the stop later if it
would start before the previous end plus the enforced travel, then record the
actual gap as travel metadata. -/
def recomputeShift (prev stop : Scheduled) (travel : ℤ) : Scheduled :=
  let requiredStart := prev.endMin + travel
  let shifted :=
    if stop.startMin < requiredStart then
      { stop with startMin := requiredStart,
                  endMin := stop.endMin + (requiredStart - stop.startMin) }
    else stop
  let actualGap := max 0 (shifted.startMin - prev.endMin)
  { shifted with travelMinFromPrev := some actualGap,
                 travelModeFromPrev := some (recommendedTravelMode actualGap) }

/-- Per-pair body of `recomputeTravelMetadata` (factored into the travel
computation and the shift step above).  `prev` is the already-processed
previous stop. -/
noncomputable def recomputeStep (city : String) (prev stop : Scheduled) : Scheduled :=
  recomputeShift prev stop (recomputeTravel city prev stop)

noncomputable def recomputeGo (city : String) (prev : Scheduled) :
    List Scheduled → List Scheduled
  | [] => []
  | s :: rest =>
    let s' := recomputeStep city prev s
    s' :: recomputeGo city s' rest

/-- Embedding of `recomputeTravelMetadata`.  The first stop's travel is the
gap from `DAY_START_MIN` (never negative, so the trailing first-stop fix-up
in the source is a no-op and is folded in here). -/
noncomputable def recomputeTravelMetadata (list : List Scheduled) (city : String) :
    List Scheduled :=
  match list with
  | [] => []
  | first :: rest =>
    let initialGap := max 0 (first.startMin - DAY_START_MIN)
    let f := { first with travelMinFromPrev := some initialGap,
                          travelModeFromPrev := some (recommendedTravelMode initialGap) }
    f :: recomputeGo city f rest

/-! ## Stable sort by start minute (JS `Array.prototype.sort` is stable) -/

def insertByStart (x : Scheduled) : List Scheduled → List Scheduled
  | [] => [x]
  | y :: ys =>
    if y.startMin < x.startMin then y :: insertByStart x ys else x :: y :: ys

def sortByStart (l : List Scheduled) : List Scheduled := l.foldr insertByStart []

/-! ## Map-link and URL helpers -/

def unreservedURI (c : Char) : Bool :=
  ('a' ≤ c ∧ c ≤ 'z') ∨ ('A' ≤ c ∧ c ≤ 'Z') ∨ ('0' ≤ c ∧ c ≤ '9') ∨
    c = '-' ∨ c = '_' ∨ c = '.' ∨ c = '!' ∨ c = '~' ∨ c = '*' ∨ c = apos ∨
    c = '(' ∨ c = ')'

def hexDigitUC (n : ℕ) : Char :=
  if n < 10 then Char.ofNat (48 + n) else Char.ofNat (55 + n)

def utf8Bytes (n : ℕ) : List ℕ :=
  if n < 0x80 then [n]
  else if n < 0x800 then [0xC0 + n / 0x40, 0x80 + n % 0x40]
  else if n < 0x10000 then
    [0xE0 + n / 0x1000, 0x80 + (n / 0x40) % 0x40, 0x80 + n % 0x40]
  else
    [0xF0 + n / 0x40000, 0x80 + (n / 0x1000) % 0x40,
     0x80 + (n / 0x40) % 0x40, 0x80 + n % 0x40]

def pctByte (b : ℕ) : List Char := ['%', hexDigitUC (b / 16), hexDigitUC (b % 16)]

/-- Model of `encodeURIComponent`. -/
def encodeURIComponentS (s : String) : String :=
  String.mk (s.data.flatMap (fun c =>
    if unreservedURI c then [c] else (utf8Bytes c.toNat).flatMap pctByte))

def gmTryLens : ℕ → List Char → Bool
  | 0, _ => false
  | k + 1, l =>
    if 2 ≤ k + 1 ∧ (l.take (k + 1)).all isWordChar ∧
        hasPrefixCL "/maps".data (l.drop (k + 1)) then true
    else gmTryLens k l

def gmAfter (l : List Char) : Bool :=
  hasPrefixCL "com/maps".data l ∨ gmTryLens (l.takeWhile isWordChar).length l

/-- Scan modelling `/google\.(com|\w{2,})\/maps/i.test(url)`. -/
def gmTestAt : List Char → Bool
  | [] => false
  | c :: rest =>
    (hasPrefixCL "google.".data (c :: rest) ∧ gmAfter ((c :: rest).drop 7))
    ∨ gmTestAt rest

/-- Embedding of `ensureGoogleMapsUrl`. -/
def ensureGoogleMapsUrl (url : Option String) (location title : String) :
    Option String :=
  let fallbackUrl :=
    some ("https://www.google.com/maps/search/?api=1&query=" ++
      encodeURIComponentS (trimS (title ++ " " ++ location)))
  match url with
  | some u =>
    if ¬ u = "" ∧ gmTestAt (lcs u.data) then some u else fallbackUrl
  | none => fallbackUrl

def hexVal (c : Char) : Option ℕ :=
  if '0' ≤ c ∧ c ≤ '9' then some (c.toNat - 48)
  else if 'a' ≤ c ∧ c ≤ 'f' then some (c.toNat - 87)
  else if 'A' ≤ c ∧ c ≤ 'F' then some (c.toNat - 55)
  else none

/-- Byte-wise percent decoding (model of `URLSearchParams`/`decodeURIComponent`
decoding; multi-byte UTF-8 sequences are kept byte-wise, which is adequate
because decoded queries only feed the external lookup oracle). -/
def pctDecode : List Char → List Char
  | [] => []
  | '%' :: h1 :: h2 :: r =>
    match hexVal h1, hexVal h2 with
    | some a, some b => Char.ofNat (a * 16 + b) :: pctDecode r
    | _, _ => '%' :: pctDecode (h1 :: h2 :: r)
  | '+' :: r => ' ' :: pctDecode r
  | c :: r => c :: pctDecode r

def splitFirst (l : List Char) (sep : Char) : List Char × Option (List Char) :=
  match splitOnChars l [sep] with
  | [] => (l, none)
  | [x] => (x, none)
  | x :: rest => (x, some (List.intercalate [sep] rest))

/-- Simplified model of `new URL(url)` query extraction for the well-formed
URLs the planner builds: requires a `://`, reads `query`/`destination` search
parameters, else the Google Maps `/maps/place/` path segment.  The extracted
text only ever feeds the external travel oracle's query string. -/
def extractQueryFromUrl (url : Option String) : Option String :=
  match url with
  | none => none
  | some u =>
    if ¬ containsS u "://" then none
    else
      let afterScheme := List.intercalate [':'] ((splitOnChars u.data [':']).drop 1)
      let hostAndRest := afterScheme.drop 2
      let hostPart := hostAndRest.takeWhile (fun c => ¬ (c = '/' ∨ c = '?'))
      let rest := hostAndRest.drop hostPart.length
      let pathPart := rest.takeWhile (fun c => ¬ c = '?')
      let queryPart := (rest.drop pathPart.length).drop 1
      let params := (splitOnChars queryPart ['&']).map (fun kv =>
        let k := kv.takeWhile (fun c => ¬ c = '=')
        (String.mk k, String.mk (pctDecode ((kv.drop k.length).drop 1))))
      let get := fun (nm : String) =>
        (params.find? (fun p => p.1 = nm ∧ ¬ p.2 = "")).map (·.2)
      match get "query" with
      | some q => some q
      | none =>
        match get "destination" with
        | some q => some q
        | none =>
          let hostS := String.mk hostPart
          if (hasPrefixCL (lcs "google.com".data).reverse (lcs hostS.data).reverse) ∧
              containsCL pathPart "/maps/place/".data then
            let segments := (splitOnChars pathPart ['/']).filter (fun s => ¬ s = [])
            if 2 ≤ segments.length then
              some (String.mk (pctDecode ((segments.getD 2 (segments.getD 1 [])))))
            else none
          else none

/-- Rational-to-text display used when a stop has coordinates; JS renders a
float here, and the exact text only feeds the external oracle. -/
def qToString (q : ℚ) : String :=
  if q.den = 1 then toString q.num else toString q.num ++ "/" ++ toString q.den

/-- Embedding of `locationQueryForStop` (reading the dataset backfill rather
than mutating the stop). -/
def locationQueryForStop (placeByName : List (String × Place)) (city : String)
    (stop : Scheduled) : String :=
  let ds := (placeByName.find? (fun e => e.1 = normName stop.title)).map (·.2)
  let lat := match stop.lat with
    | some v => some v
    | none => ds.bind (·.lat)
  let lng := match stop.lng with
    | some v => some v
    | none => ds.bind (·.lng)
  match lat, lng with
  | some la, some ln => qToString la ++ "," ++ qToString ln
  | _, _ =>
    match extractQueryFromUrl stop.url with
    | some q => q ++ ", New York, NY"
    | none =>
      let parts :=
        (if ¬ stop.title = "" then [stop.title] else []) ++
        (match stop.location with
         | some loc =>
           if ¬ loc = "" ∧
               ¬ containsCL (lcs loc.data) (lcs stop.title.data) then [loc]
           else []
         | none => []) ++
        [city]
      String.intercalate ", " (parts.filter (fun s => ¬ s = ""))

/-! ## Accurate travel refinement (src/lib/planner.ts, `applyAccurateTravelTimes`) -/

structure AccurateResult where
  minutes : ℤ
  mode : Mode
deriving DecidableEq, Repr

/-- External distance-matrix lookup, modelled as an oracle from the origin and
destination query strings; `none` is a failed lookup. -/
def AccurateOracle := String → String → Option AccurateResult

/-- Sequential pass of `applyAccurateTravelTimes` over adjacent pairs: a
successful lookup shifts the current stop later when the looked-up minutes
exceed the current gap; a failed lookup leaves the pair unadjusted. -/
def applyAccurateGo (oracle : AccurateOracle) (placeByName : List (String × Place))
    (city : String) (prev : Scheduled) : List Scheduled → List Scheduled
  | [] => []
  | curr :: rest =>
    let origin := locationQueryForStop placeByName city prev
    let destination := locationQueryForStop placeByName city curr
    match oracle origin destination with
    | none => curr :: applyAccurateGo oracle placeByName city curr rest
    | some acc =>
      let gap := max 0 (curr.startMin - prev.endMin)
      let shifted :=
        if gap < acc.minutes then
          { curr with startMin := curr.startMin + (acc.minutes - gap),
                      endMin := curr.endMin + (acc.minutes - gap) }
        else curr
      let curr' := { shifted with travelMinFromPrev := some acc.minutes,
                                  travelModeFromPrev := some acc.mode }
      curr' :: applyAccurateGo oracle placeByName city curr' rest

/-- Embedding of `applyAccurateTravelTimes` (ending with the stable re-sort by
start minute). -/
def applyAccurateTravelTimes (oracle : AccurateOracle)
    (placeByName : List (String × Place)) (city : String)
    (list : List Scheduled) : List Scheduled :=
  match list with
  | [] => []
  | [x] => [x]
  | x :: rest => sortByStart (x :: applyAccurateGo oracle placeByName city x rest)

end TB

namespace TB

/-! ## Greedy wheel selection (src/lib/planner.ts, `pickNextSuggestion`) -/

structure PickOpts where
  currentMin : ℤ
  currentLocation : String
  dateISO : String
  travelFromTo : String → String → ℤ
  previousCategory : Option String := none
  previousIsMeal : Bool := false
  previousIsMorningMeal : Bool := false
  previousStop : Option Scheduled := none
  scheduled : List Scheduled := []
  isWeekend : Bool := false
  brunchChosen : Bool := false
  lunchChosen : Bool := false
  areaLock : Option (String × ℤ) := none

/-- Travel-in of a wheel candidate
(`opts.travelFromTo(opts.currentLocation || city, p.location || p.neighborhood || city)`). -/
def wheelTravel (city : String) (opts : PickOpts) (p : Place) : ℤ :=
  opts.travelFromTo (jsOr opts.currentLocation city)
    (jsOrO p.location (jsOrO p.neighborhood city))

/-- Planned start of a wheel candidate (`opts.currentMin + travel`). -/
def wheelStart (city : String) (opts : PickOpts) (p : Place) : ℤ :=
  opts.currentMin + wheelTravel city opts p

/-- Category under which candidate hours are checked in the wheel. -/
def wheelHoursCategory (cat : String) (p : Place) : String :=
  if isBarCategory (some (lower cat)) ∨ isFoodCategory (some (lower cat)) then cat
  else jsOrO p.category cat

/-- Feasibility filter and score of one wheel candidate for one category:
`none` models every `continue` in the candidate loop of `pickNextSuggestion`,
in source order. -/
def wheelFeasibleScore (city : String) (pace : Pace)
    (wouldExceedCategoryMinutes : String → ℤ → Bool)
    (score : Place → String → ℚ) (opts : PickOpts) (cat : String) (p : Place) :
    Option ℚ :=
  let areaKey := areaKeyFromPlace p
  let lockBlocked : Bool := match opts.areaLock with
    | some al => if al.1 = "" then false else ¬ areaKey = some al.1
    | none => false
  if lockBlocked then none else
  let desiredCat := lower cat
  if ¬ opts.isWeekend ∧ desiredCat = "brunch" then none else
  if opts.isWeekend ∧ opts.lunchChosen ∧ desiredCat = "brunch" then none else
  if opts.isWeekend ∧ opts.brunchChosen ∧ desiredCat = "lunch" then none else
  let dur := plannedDurationMinutes p desiredCat pace
  if wouldExceedCategoryMinutes cat dur then none else
  let placeCat := lower (jsOrO p.category "")
  if ¬ isBarCategory (some desiredCat) ∧ isBarCategory (some placeCat) then none else
  if isFoodCategory (some desiredCat) ∧ ¬ placeCat = "" ∧ ¬ placeCat = desiredCat
    then none else
  if ¬ isFoodCategory (some desiredCat) ∧ isFoodCategory (some placeCat) then none else
  let candidateIsMeal := isMealCategory (some desiredCat) (some p)
  let candidateIsMorning := isMorningMealCategory (some desiredCat) (some p)
  if opts.previousIsMorningMeal ∧ candidateIsMorning then none else
  if opts.previousIsMeal ∧ candidateIsMeal then none else
  let lastStop := match opts.previousStop with
    | some s => some s
    | none => opts.scheduled.getLast?
  let travel := wheelTravel city opts p
  if ¬ travelWithinLimit travel false then none else
  let start := wheelStart city opts p
  let dEnd := start + dur
  if ¬ desiredCat = "breakfast" ∧ ¬ desiredCat = "coffee" ∧
      start < GENERAL_ACTIVITY_START_MIN then none else
  if desiredCat = "breakfast" ∧
      (start < BREAKFAST_EARLIEST_MIN ∨ BREAKFAST_LATEST_MIN ≤ start) then none else
  if desiredCat = "brunch" ∧
      (start < BRUNCH_START_MIN ∨ BRUNCH_END_MIN ≤ start) then none else
  if desiredCat = "lunch" ∧
      (start < LUNCH_START_MIN ∨ LUNCH_WINDOW_END ≤ start) then none else
  if candidateIsMeal ∧ AFTERNOON_START_MIN ≤ start ∧ start < AFTERNOON_END_MIN
    then none else
  if desiredCat = "dinner" ∧ start < DINNER_START_MIN then none else
  if candidateIsMeal ∧ ¬ desiredCat = "breakfast" ∧ ¬ desiredCat = "brunch" ∧
      ¬ desiredCat = "lunch" ∧ ¬ desiredCat = "dinner" ∧ start < DINNER_START_MIN
    then none else
  let sc0 := score p cat
  let sc := match lastStop with
    | some ls =>
      if isFoodCategory ls.category ∧ isFoodCategory (some desiredCat) ∧
          start - ls.endMin < 90 then
        sc0 + 6 + (if desiredCat = "lunch" ∧ start < 12 * 60 then 3 else 0)
      else sc0
    | none => sc0
  if start < LUNCH_START_MIN ∧ isLunchy p cat then none else
  if isBarCategory (some desiredCat) ∧ start < FIVE_PM_MIN then none else
  if 0 < isLikelyClosedDuring p.hours (wheelHoursCategory cat p) start dEnd
      opts.dateISO then none else
  some sc

/-- Iteration-order argmin with strict improvement (first feasible candidate
wins ties), modelling the `sc < bestScore` update. -/
def bestInPool (f : Place → Option ℚ) (candidates : List Place) :
    Option (Place × ℚ) :=
  candidates.foldl (fun best p =>
    match f p with
    | none => best
    | some sc =>
      match best with
      | none => some (p, sc)
      | some b => if sc < b.2 then some (p, sc) else best) none

/-- Embedding of `pickNextSuggestion`: the first category of the wheel with a
feasible candidate yields the best-scoring one. -/
def pickNextSuggestion (categories : List String) (candidates : List Place)
    (city : String) (pace : Pace)
    (wouldExceedCategoryMinutes : String → ℤ → Bool)
    (score : Place → String → ℚ) (opts : PickOpts) : Option (Place × String) :=
  match categories with
  | [] => none
  | cat :: rest =>
    match bestInPool
        (wheelFeasibleScore city pace wouldExceedCategoryMinutes score opts cat)
        candidates with
    | some b => some (b.1, cat)
    | none =>
      pickNextSuggestion rest candidates city pace wouldExceedCategoryMinutes
        score opts

/-! ## Gap filler pool selection (src/lib/planner.ts, `tryGapPool`) -/

/-- Closure environment of `tryGapPool` inside `plan`. -/
structure GapEnv where
  city : String
  pace : Pace
  dateISO : String
  isWeekend : Bool := false
  brunchChosen : Bool := false
  lunchChosen : Bool := false
  placeByName : List (String × Place) := []

def lookupPlaceByName (m : List (String × Place)) (k : String) : Option Place :=
  (m.find? (fun e => e.1 = k)).map (·.2)

/-- Category under which candidate hours are checked in the gap filler. -/
def gapHoursCategory (p : Place) : String :=
  let category := jsOrO p.category ""
  let categoryKey := lower category
  if isBarCategory (some categoryKey) ∨ isFoodCategory (some categoryKey) then
    category
  else jsOrO p.category category

/-- Feasibility, construction and score of one gap-pool candidate; `none`
models every `continue` in `tryGapPool`'s loop, in source order. -/
noncomputable def gapCandidate (env : GapEnv) (prev : Scheduled)
    (next : Option Scheduled) (gapMinutes : ℤ) (p : Place) :
    Option (Scheduled × ℚ) :=
  let placeLoc := jsOrO p.location (jsOrO p.neighborhood env.city)
  let travelIn := minutesTravel (jsOrO prev.location env.city) placeLoc
  if ¬ travelWithinLimit travelIn prev.isAnchor then none else
  let travelOut := match next with
    | some n => minutesTravel placeLoc (jsOrO n.location env.city)
    | none => 0
  let nextIsAnchor := match next with
    | some n => n.isAnchor
    | none => false
  if ¬ travelWithinLimit travelOut nextIsAnchor then none else
  let available := gapMinutes - travelIn - travelOut
  if available < MIN_FLEX_BLOCK_MIN then none else
  let category := jsOrO p.category ""
  let categoryKey := lower category
  let baseDur := plannedDurationMinutes p categoryKey env.pace
  let duration := min baseDur available
  if duration < MIN_FLEX_BLOCK_MIN then none else
  let startMin := prev.endMin + travelIn
  let endMin := startMin + duration
  if (match next with
      | some n => decide (n.startMin < endMin + travelOut)
      | none => false) then none else
  if (match next with
      | some _ => false
      | none => decide (DAY_END_MIN < endMin)) then none else
  if ¬ env.isWeekend ∧ categoryKey = "brunch" then none else
  if env.isWeekend ∧ env.brunchChosen ∧ categoryKey = "lunch" then none else
  if env.isWeekend ∧ env.lunchChosen ∧ categoryKey = "brunch" then none else
  if ¬ categoryKey = "breakfast" ∧ ¬ categoryKey = "coffee" ∧
      startMin < GENERAL_ACTIVITY_START_MIN then none else
  if categoryKey = "breakfast" ∧
      (startMin < BREAKFAST_EARLIEST_MIN ∨ BREAKFAST_LATEST_MIN ≤ startMin)
    then none else
  if categoryKey = "brunch" ∧
      (startMin < BRUNCH_START_MIN ∨ BRUNCH_END_MIN ≤ startMin) then none else
  if startMin < LUNCH_START_MIN ∧ isLunchy p category then none else
  if categoryKey = "lunch" ∧
      (startMin < LUNCH_START_MIN ∨ LUNCH_WINDOW_END ≤ startMin) then none else
  let prevPlace := lookupPlaceByName env.placeByName (normName prev.title)
  let nextPlace := match next with
    | some n => lookupPlaceByName env.placeByName (normName n.title)
    | none => none
  let candidateIsMorning := isMorningMealCategory (some categoryKey) (some p)
  let nextIsMorning : Bool := match next with
    | some n => isMorningMealCategory n.category nextPlace
    | none => false
  if isMorningMealCategory prev.category prevPlace ∧ candidateIsMorning
    then none else
  if nextIsMorning ∧ candidateIsMorning then none else
  let candidateIsMeal := isMealCategory (some categoryKey) (some p)
  if candidateIsMeal ∧ AFTERNOON_START_MIN ≤ startMin ∧
      startMin < AFTERNOON_END_MIN then none else
  if categoryKey = "dinner" ∧ startMin < DINNER_START_MIN then none else
  if candidateIsMeal ∧
      ¬ (categoryKey = "breakfast" ∨ categoryKey = "brunch" ∨
         categoryKey = "lunch" ∨ categoryKey = "dinner") ∧
      startMin < DINNER_START_MIN then none else
  let nextIsMeal : Bool := match next with
    | some n => isMealCategory n.category nextPlace
    | none => false
  if isMealCategory prev.category prevPlace ∧ candidateIsMeal then none else
  if nextIsMeal ∧ candidateIsMeal then none else
  if isBarCategory (some categoryKey) ∧ startMin < FIVE_PM_MIN then none else
  if 0 < isLikelyClosedDuring p.hours (gapHoursCategory p) startMin endMin
      env.dateISO then none else
  let leftover := gapMinutes - (travelIn + duration + travelOut)
  if leftover < 0 then none else
  let entry : Scheduled :=
    { title := p.name, location := some placeLoc,
      description := p.description.getD "Worth a stop nearby.",
      category := some (jsOrO p.category "walk"),
      startMin := startMin, endMin := endMin,
      url := p.url,
      travelMinFromPrev := some travelIn,
      travelModeFromPrev := some (recommendedTravelMode travelIn) }
  some (entry, (travelIn : ℚ) * 1.4 + (travelOut : ℚ) * 1.2 + (leftover : ℚ) * 0.8)

/-- Embedding of `tryGapPool`: iteration-order argmin over the pool of the
per-candidate score, with strict improvement. -/
noncomputable def tryGapPool (env : GapEnv) (pool : List Place) (prev : Scheduled)
    (next : Option Scheduled) (gapMinutes : ℤ) :
    Option (Scheduled × Place × ℚ) :=
  pool.foldl (fun best p =>
    match gapCandidate env prev next gapMinutes p with
    | none => best
    | some sp =>
      match best with
      | none => some (sp.1, p, sp.2)
      | some b => if sp.2 < b.2.2 then some (sp.1, p, sp.2) else best) none

end TB

namespace TB

/-! ## Engine-local state (the closure-captured counters of `plan`) -/

/-- The mutable engine-local state captured by the scheduling closures of
`plan`, made explicit. -/
structure PlannerState where
  city : String
  date : String
  pace : Pace
  vibes : List String := []
  isWeekend : Bool := false
  dayStartMin : ℤ := DAY_START_MIN
  preferredArea : String := ""
  cityAreaKey : Option String := none
  anchorAreaKeys : List String := []
  placeByName : List (String × Place) := []
  coffeePlaces : List Place := []
  scheduled : List Scheduled := []
  usedNameKeys : List String := []
  categoryCounts : List (String × ℤ) := []
  cuisineCounts : List (String × ℤ) := []
  scheduledAreaCounts : List (String × ℤ) := []
  areaPartnerNeeds : List (String × ℤ) := []
  neighborhoodLockCounts : List (String × ℤ) := []
  activeLockArea : Option String := none
  activeLockRemaining : ℤ := 0
  brunchChosen : Bool := false
  lunchChosen : Bool := false

/-- Accented e (U+00E9) of the `café` cuisine token. -/
def eAcute : Char := Char.ofNat 233

def cafeAccent : List Char := "caf".data ++ [eAcute]

/-- The `CUISINE_KEYS` table: key and the word-boundary tokens of its regex. -/
def CUISINE_KEYS : List (String × List (List Char)) :=
  [("pizza", ["pizza".data, "slice".data]),
   ("bagel", ["bagel".data, "bagels".data]),
   ("italian", ["italian".data, "trattoria".data, "osteria".data,
                "ristorante".data, "pasta".data]),
   ("deli", ["deli".data, "pastrami".data, "rye".data, "katz".data]),
   ("burger", ["burger".data, "smashburger".data]),
   ("tacos", ["taco".data, "tacos".data, "taqueria".data]),
   ("coffee", ["coffee".data, cafeAccent, "cafe".data, "espresso".data,
               "latte".data]),
   ("dessert", ["ice cream".data, "gelato".data, "cookie".data,
                "dessert".data, "bakery".data, "pastry".data])]

/-- Embedding of `cuisineKeyFromPlace` (which only reads the name; the `/i`
regexes are modelled by matching tokens against the lower-cased name). -/
def cuisineKeyFromName (name : String) : Option String :=
  (CUISINE_KEYS.find? (fun e => anyWb (lcs name.data) e.2)).map (·.1)

/-- Embedding of `markMealScheduled`. -/
def markMealScheduled (st : PlannerState) (cat : Option String) : PlannerState :=
  let key := lower (jsOrO cat "")
  if key = "" then st
  else
    { st with brunchChosen := st.brunchChosen ∨ key = "brunch",
              lunchChosen := st.lunchChosen ∨ key = "lunch" }

def resetAreaLockSt (st : PlannerState) : PlannerState :=
  { st with activeLockArea := none, activeLockRemaining := 0 }

/-- Embedding of `advanceAreaLock`. -/
def advanceAreaLock (st : PlannerState) (areaKey : Option String) : PlannerState :=
  match areaKey with
  | none => if st.activeLockRemaining ≤ 0 then resetAreaLockSt st else st
  | some k =>
    let lockLive : Bool :=
      (match st.activeLockArea with
       | some a => decide (¬ a = "")
       | none => false) && decide (0 < st.activeLockRemaining)
    if lockLive then
      if st.activeLockArea = some k then
        let r := st.activeLockRemaining - 1
        if r ≤ 0 then resetAreaLockSt st else { st with activeLockRemaining := r }
      else
        { st with activeLockArea := some k,
                  activeLockRemaining := NEIGHBORHOOD_LOCK_RUN - 1 }
    else
      { st with activeLockArea := some k,
                activeLockRemaining := NEIGHBORHOOD_LOCK_RUN - 1 }

/-- Decrement-or-delete of one partner-need entry (`decrementNeed`). -/
def decNeed (m : List (String × ℤ)) (areaKey : String) : List (String × ℤ) :=
  match alGet m areaKey with
  | some need =>
    if need = 0 then m
    else if need ≤ 1 then alDel m areaKey
    else alSet m areaKey (need - 1)
  | none => m

/-- Embedding of `registerAreaForStop`. -/
def registerAreaForStop (st : PlannerState) (stop : Scheduled)
    (isAnchorStop : Bool) : PlannerState :=
  match areaKeyFromStop stop with
  | none => st
  | some areaKey =>
    if st.cityAreaKey = some areaKey then st
    else
      let prevCount := alGetD st.scheduledAreaCounts areaKey 0
      let st1 :=
        { st with scheduledAreaCounts :=
                    alSet st.scheduledAreaCounts areaKey (prevCount + 1) }
      let catKey := lower (jsOrO stop.category "")
      let isFoodStop := isFoodCategory (some catKey)
      if isAnchorStop ∨ ssMem st1.anchorAreaKeys areaKey then
        { st1 with areaPartnerNeeds := decNeed st1.areaPartnerNeeds areaKey }
      else if prevCount = 0 then
        if ¬ isFoodStop then
          { st1 with areaPartnerNeeds :=
                       alSet st1.areaPartnerNeeds areaKey
                         (alGetD st1.areaPartnerNeeds areaKey 0 + 1) }
        else st1
      else { st1 with areaPartnerNeeds := decNeed st1.areaPartnerNeeds areaKey }

/-- Embedding of `registerStop`; returns the updated state and the stop with
its coordinate backfill applied (the source mutates the stop in place). -/
def registerStop (st : PlannerState) (stop : Scheduled)
    (sourcePlace : Option Place) : PlannerState × Scheduled :=
  let st0 := markMealScheduled st stop.category
  let stop1 := match sourcePlace with
    | some sp =>
      { stop with
        lat := (match stop.lat with
          | some v => some v
          | none => sp.lat),
        lng := (match stop.lng with
          | some v => some v
          | none => sp.lng) }
    | none => stop
  let stop2 :=
    if stop1.lat.isNone ∨ stop1.lng.isNone then
      match lookupPlaceByName st0.placeByName (normName stop1.title) with
      | some ds =>
        { stop1 with
          lat := (match stop1.lat with
            | some v => some v
            | none => ds.lat),
          lng := (match stop1.lng with
            | some v => some v
            | none => ds.lng) }
      | none => stop1
    else stop1
  let st1 := registerAreaForStop st0 stop2 false
  let st2 := match areaKeyFromStop stop2 with
    | some areaKey =>
      advanceAreaLock
        { st1 with neighborhoodLockCounts :=
                     alBump st1.neighborhoodLockCounts areaKey }
        (some areaKey)
    | none => st1
  let catKey := lower (jsOrO stop2.category "misc")
  let st3 := { st2 with categoryCounts := alBump st2.categoryCounts catKey }
  let st4 := { st3 with usedNameKeys := ssAdd st3.usedNameKeys (normName stop2.title) }
  let ck := match sourcePlace with
    | some sp => cuisineKeyFromName sp.name
    | none => cuisineKeyFromName stop2.title
  let st5 := match ck with
    | some k => { st4 with cuisineCounts := alBump st4.cuisineCounts k }
    | none => st4
  (st5, stop2)

/-! ## Neighborhood run and penalty helpers -/

def recentRunGo (areaKey : String) : List Scheduled → ℤ
  | [] => 0
  | s :: rest =>
    match areaKeyFromStop s with
    | some a => if a = areaKey then 1 + recentRunGo areaKey rest else 0
    | none => 0

/-- Embedding of `recentAreaRunLength` (consecutive same-area run at the end
of the schedule). -/
def recentAreaRunLength (st : PlannerState) (areaKey : Option String) : ℤ :=
  match areaKey with
  | none => 0
  | some k => if k = "" then 0 else recentRunGo k st.scheduled.reverse

/-- Embedding of `areaVisitPenalty`. -/
def areaVisitPenalty (st : PlannerState) (areaKey : Option String) : ℚ :=
  match areaKey with
  | none => 0
  | some k =>
    if k = "" then 0
    else
      let visits := alGetD st.scheduledAreaCounts k 0
      let run := recentAreaRunLength st (some k)
      (if MAX_AREA_VISITS ≤ visits then
        15 * ((visits : ℚ) - (MAX_AREA_VISITS : ℚ) + 1) else 0) +
      (if MAX_AREA_RUN ≤ run then
        12 * ((run : ℚ) - (MAX_AREA_RUN : ℚ) + 1) else 0)

def prevDistinctGo (currentArea : Option String) : List Scheduled → Option String
  | [] => none
  | s :: rest =>
    match areaKeyFromStop s with
    | none => prevDistinctGo currentArea rest
    | some a =>
      if (match currentArea with
          | some ca => decide (¬ ca = "") && decide (a = ca)
          | none => false) then prevDistinctGo currentArea rest
      else some a

/-- Embedding of `previousDistinctArea`. -/
def previousDistinctArea (st : PlannerState) (currentArea : Option String) :
    Option String :=
  prevDistinctGo currentArea st.scheduled.reverse

/-! ## Coffee picker (src/lib/planner.ts, `pickCoffeeCandidate`) -/

/-- Feasibility and score of one coffee candidate; `none` models the loop's
`continue`s (already used, over-visited area, travel beyond the non-anchor
ceiling). -/
noncomputable def coffeeScore (st : PlannerState) (baseLoc : String)
    (baseArea prevDistinct : Option String) (place : Place) : Option ℚ :=
  let key := normName place.name
  if ssMem st.usedNameKeys key then none else
  let area := areaKeyFromPlace place
  if (match area with
      | some a =>
        decide (¬ ssMem st.anchorAreaKeys a ∧
          MAX_AREA_VISITS ≤ alGetD st.scheduledAreaCounts a 0)
      | none => false) then none else
  let sc0 : ℚ := match baseArea, area with
    | some ba, some a => if ¬ ba = a then 3.2 else 0
    | _, none => 1.5
    | none, some _ => 0
  let travel := minutesTravel baseLoc
    (jsOrO place.location (jsOrO place.neighborhood st.city))
  if ¬ travelWithinLimit travel false then none else
  let sc1 := sc0 + (travel : ℚ) / 6
  let sc2 := match area with
    | some a =>
      if 2 ≤ st.scheduled.length then
        let visits := alGetD st.scheduledAreaCounts a 0
        let vpen : ℚ :=
          if 2 ≤ visits then (visits : ℚ) * 4.5 + 4
          else if 1 ≤ visits then (visits : ℚ) * 2.5
          else 0
        let run := recentAreaRunLength st (some a)
        let rpen : ℚ := if 1 ≤ run then ((run : ℚ) + 1) * 3.0 else 0
        sc1 + vpen + rpen
      else sc1
    | none => sc1
  let sc3 := sc2 + areaVisitPenalty st area
  let sc4 := match area, prevDistinct with
    | some a, some pd => if a = pd then sc3 + AREA_BOUNCE_PENALTY else sc3
    | _, _ => sc3
  some sc4

/-- Embedding of `pickCoffeeCandidate`. -/
noncomputable def pickCoffeeCandidate (st : PlannerState) (baseLoc : String) :
    Option CandidateStop :=
  let baseArea := areaKeyFromString (some baseLoc)
  let prevDistinct := previousDistinctArea st baseArea
  let best := st.coffeePlaces.foldl (fun best place =>
    match coffeeScore st baseLoc baseArea prevDistinct place with
    | none => best
    | some sc =>
      match best with
      | none => some (place, sc)
      | some b => if sc < b.2 then some (place, sc) else best) none
  match best with
  | none => none
  | some (bp, _) =>
    let duration := max 25 (bp.duration_min.getD 30)
    let location := jsOrO bp.location (jsOrO bp.neighborhood baseLoc)
    some { title := bp.name,
           location := some location,
           description := some (bp.description.getD "Grab a great cup of coffee nearby."),
           category := jsOrO bp.category "coffee",
           duration := duration,
           url := ensureGoogleMapsUrl bp.url location bp.name,
           lat := bp.lat, lng := bp.lng }

/-! ## Morning kickoff (src/lib/planner.ts, `ensureMorningKickoff`) -/

/-- The local `isBreakfastCategory` helper. -/
def isBreakfastCat (cat : Option String) : Bool :=
  match cat with
  | none => false
  | some c =>
    if c = "" then false
    else lower c = "breakfast" ∨ lower c = "coffee"

/-- Second branch of `ensureMorningKickoff`: build a coffee/breakfast stop at
the day start, prepend it, register it, and refresh travel metadata. -/
noncomputable def kickoffSecond (st : PlannerState) (first? : Option Scheduled) :
    PlannerState :=
  let branchCond : Bool :=
    first?.isNone ||
    (match first? with
     | some f => decide (st.dayStartMin < f.startMin)
     | none => false) ||
    !(match first? with
      | some f => isBreakfastCat f.category
      | none => false)
  if branchCond then
    let baseLoc := jsOrO (first?.bind (·.location)) (jsOr st.preferredArea st.city)
    let coffee := pickCoffeeCandidate st baseLoc
    let duration := match coffee with
      | some c => c.duration
      | none => 60
    let endMin := match first? with
      | some f => min f.startMin (st.dayStartMin + duration)
      | none => st.dayStartMin + duration
    let stop : Scheduled := match coffee with
      | some c =>
        { title := c.title,
          location := some (c.location.getD baseLoc),
          description := c.description.getD
            "Ease into the day with a light breakfast near your start point.",
          category := some c.category,
          startMin := st.dayStartMin, endMin := endMin,
          url := ensureGoogleMapsUrl c.url (c.location.getD baseLoc) c.title,
          travelMinFromPrev := some 0, travelModeFromPrev := some .walk,
          lat := c.lat, lng := c.lng }
      | none =>
        { title := "Morning coffee & pastry",
          location := some baseLoc,
          description := "Ease into the day with a light breakfast near your start point.",
          category := some "breakfast",
          startMin := st.dayStartMin, endMin := endMin,
          url := ensureGoogleMapsUrl none baseLoc "coffee shop",
          travelMinFromPrev := some 0, travelModeFromPrev := some .walk }
    let rs := registerStop st stop none
    let st2 := { rs.1 with scheduled := rs.2 :: st.scheduled }
    { st2 with scheduled := recomputeTravelMetadata st2.scheduled st.city }
  else st

/-- Embedding of `ensureMorningKickoff`: sorts the schedule; when the first
stop already has a breakfast/coffee category and starts after the day start,
it is pulled back to the day start (keeping the larger of its duration and
the category floor); otherwise a coffee/breakfast stop is prepended. -/
noncomputable def ensureMorningKickoff (st0 : PlannerState) : PlannerState :=
  let sched := sortByStart st0.scheduled
  let st := { st0 with scheduled := sched }
  match sched.head? with
  | some first =>
    if isBreakfastCat first.category then
      if st.dayStartMin < first.startMin then
        let overrideD := (catDurationOverride (lower (jsOrO first.category ""))).getD 45
        let duration := max (first.endMin - first.startMin) overrideD
        let first' :=
          { first with startMin := st.dayStartMin,
                       endMin := st.dayStartMin + duration,
                       travelMinFromPrev := some 0,
                       travelModeFromPrev := some .walk }
        { st with scheduled := first' :: sched.tail }
      else st
    else kickoffSecond st (some first)
  | none => kickoffSecond st none

/-! ## Anchor placement step (the anchor loop of `plan`, lines 2958-3007) -/

/-- One anchor placement of `plan`'s anchor-interleaving loop: the anchor is
shifted forward to clear the current cursor plus travel, never earlier, and
its duration is carried over unchanged. -/
noncomputable def placeAnchorStep (city : String) (currentMin : ℤ)
    (currentLocation : String) (a : Scheduled) : Scheduled :=
  let travelToNext := minutesTravel (jsOr currentLocation city) (jsOrO a.location city)
  let nextStart := max a.startMin (currentMin + travelToNext)
  let nextEnd := nextStart + (a.endMin - a.startMin)
  let nextTravel := max 0 (nextStart - currentMin)
  { a with startMin := nextStart, endMin := nextEnd,
           travelMinFromPrev := some nextTravel,
           travelModeFromPrev := some (recommendedTravelMode nextTravel) }

end TB

namespace TB

/-! ## Anchor builder (src/lib/planner.ts, lock parsing and the anchors map) -/

/-- Anchored match of `^([01]?\d|2[0-3]):([0-5]\d)$`. -/
def matchM24 (l : List Char) : Option ℤ :=
  match l with
  | [h1, ':', m1, m2] =>
    if h1.isDigit ∧ ('0' ≤ m1 ∧ m1 ≤ '5') ∧ m2.isDigit then
      some (((digitVal h1 : ℕ) : ℤ) * 60 + ((digitVal m1 * 10 + digitVal m2 : ℕ) : ℤ))
    else none
  | [h1, h2, ':', m1, m2] =>
    if (((h1 = '0' ∨ h1 = '1') ∧ h2.isDigit) ∨
        (h1 = '2' ∧ '0' ≤ h2 ∧ h2 ≤ '3')) ∧
        ('0' ≤ m1 ∧ m1 ≤ '5') ∧ m2.isDigit then
      some (((digitVal h1 * 10 + digitVal h2 : ℕ) : ℤ) * 60 +
        ((digitVal m1 * 10 + digitVal m2 : ℕ) : ℤ))
    else none
  | _ => none

/-- Tail of the 12-hour pattern after the hour digits:
`(?::([0-5]\d))?\s*(am|pm)?$` with backtracking over the optional minutes. -/
def m12Tail (rest : List Char) : Option (ℤ × Option Bool) :=
  let finish := fun (mm : ℤ) (r : List Char) =>
    let r2 := dropLeadingSpaces r
    match r2 with
    | [] => some (mm, (none : Option Bool))
    | [a, b] =>
      let la := lcChar a
      let lb := lcChar b
      if la = 'a' ∧ lb = 'm' then some (mm, some false)
      else if la = 'p' ∧ lb = 'm' then some (mm, some true)
      else none
    | _ => none
  match rest with
  | ':' :: m1 :: m2 :: r =>
    if ('0' ≤ m1 ∧ m1 ≤ '5') ∧ m2.isDigit then
      match finish (((digitVal m1 * 10 + digitVal m2 : ℕ) : ℤ)) r with
      | some v => some v
      | none => finish 0 (':' :: m1 :: m2 :: r)
    else finish 0 (':' :: m1 :: m2 :: r)
  | _ => finish 0 rest

/-- Anchored match of `^(\d{1,2})(?::([0-5]\d))?\s*(am|pm)?$/i`. -/
def matchM12 (l : List Char) : Option (ℤ × ℤ × Option Bool) :=
  (matchHour l).findSome? (fun hr =>
    (m12Tail hr.2).map (fun t => (hr.1, t.1, t.2)))

/-- Embedding of `parseClockMaybe`. -/
def parseClockMaybe (s : Option String) : Option ℤ :=
  match s with
  | none => none
  | some str =>
    if str = "" then none
    else
      let raw := trimCL str.data
      match matchM24 raw with
      | some v => some v
      | none =>
        match matchM12 raw with
        | some (h, mm, ap) =>
          let h1 := if ap = some true ∧ h < 12 then h + 12 else h
          let h2 := if ap = some false ∧ h1 = 12 then 0 else h1
          some (h2 * 60 + mm)
        | none => none

/-- Tail of `^(\d{1,2})(?:[:.]?(\d{2}))?$` after the hour digits. -/
def hourOnlyTail (l : List Char) : Option ℤ :=
  match l with
  | [] => some 0
  | [c, m1, m2] =>
    if (c = ':' ∨ c = '.') ∧ m1.isDigit ∧ m2.isDigit then
      some ((digitVal m1 * 10 + digitVal m2 : ℕ) : ℤ)
    else none
  | [m1, m2] =>
    if m1.isDigit ∧ m2.isDigit then
      some ((digitVal m1 * 10 + digitVal m2 : ℕ) : ℤ)
    else none
  | _ => none

def hourOnlyMatch (l : List Char) : Option (ℤ × ℤ) :=
  (matchHour l).findSome? (fun hr =>
    (hourOnlyTail hr.2).map (fun mm => (hr.1, mm)))

def dinnerishTokens : List (List Char) :=
  ["dinner".data, "evening".data, "tonight".data, "show".data,
   "broadway".data, "concert".data, "theatre".data, "theater".data,
   "drinks".data, "cocktail".data, "cocktails".data, "bar".data,
   "speakeasy".data]

def breakfastishTokens : List (List Char) :=
  ["breakfast".data, "brunch".data, "morning".data, "bagel".data, "coffee".data]

/-- Embedding of `parseClockMaybeWithContext`. -/
def parseClockMaybeWithContext (s title description : Option String) : Option ℤ :=
  let raw := trimS (jsOrO s "")
  if raw = "" then none
  else
    match parseClockMaybe (some raw) with
    | some v => some v
    | none =>
      match hourOnlyMatch raw.data with
      | none => none
      | some (h0, mm0) =>
        let t := lower ((jsOrO title "") ++ " " ++ (jsOrO description ""))
        let isDinnerish := anyWb t.data dinnerishTokens
        let isLunchish := anyWb t.data ["lunch".data, "afternoon".data]
        let isBreakfast := anyWb t.data breakfastishTokens
        let h :=
          if isDinnerish then
            let ha := if h0 ≤ 11 then h0 + 12 else h0
            if ha < 17 then max 18 ha else ha
          else if isLunchish then
            if ¬ h0 = 12 ∧ h0 < 8 then h0 + 12 else h0
          else if isBreakfast then
            let ha := if h0 = 12 then 8 else h0
            if 12 < ha then ha - 12 else ha
          else
            if h0 ≤ 7 then h0 + 12 else h0
        some (h * 60 + mm0)

/-- Midpoint with JS rounding (`Math.round((lo + hi) / 2)`). -/
def windowMidpoint (lo hi : ℤ) : ℤ := round (((lo : ℚ) + (hi : ℚ)) / 2)

/-- The ordered daypart-keyword map of `parseDaypartWords` (each mapping to a
`DAYPART_WINDOWS` key); the optional `early\s+` prefix of `morning` does not
change containment. -/
def daypartWordMap : List (List (List Char) × String) :=
  [(["morning".data], "morning"),
   (["brunch".data], "brunch"),
   (["lunch".data], "lunch"),
   (["afternoon".data], "afternoon"),
   (["dinner".data], "dinner"),
   (["evening".data, "tonight".data], "evening"),
   (["drinks".data, "cocktail".data, "cocktails".data, "speakeasy".data,
     "bar".data], "drinks"),
   (["breakfast".data, "bagel".data, "bagels".data], "breakfast")]

def daypartWindowFor (key : String) : Option (ℤ × ℤ) :=
  (DAYPART_WINDOWS.find? (fun e => e.1 = key)).map (·.2)

/-- Embedding of `parseDaypartWords`. -/
def parseDaypartWords (s : Option String) : Option ℤ :=
  match s with
  | none => none
  | some str =>
    if str = "" then none
    else
      let t := lower str
      if wbContains t.data "midnight".data then some 0
      else if wbContains t.data "noon".data then some (12 * 60)
      else
        match daypartWordMap.find? (fun e => anyWb t.data e.1) with
        | some e =>
          match daypartWindowFor e.2 with
          | some w => some (windowMidpoint w.1 w.2)
          | none => none
        | none => none

/-- Embedding of `clampStartToDaypart`. -/
def clampStartToDaypart (startMin : ℤ) (title description : Option String) : ℤ :=
  let t := lower ((jsOrO title "") ++ " " ++ (jsOrO description ""))
  let window :=
    match DAYPART_WINDOWS.find? (fun e => wbContains t.data e.1.data) with
    | some e => some e.2
    | none =>
      if wbContains t.data "morning".data then daypartWindowFor "morning"
      else if wbContains t.data "afternoon".data then daypartWindowFor "afternoon"
      else if wbContains t.data "evening".data ∨ wbContains t.data "tonight".data
        then daypartWindowFor "evening"
      else none
  match window with
  | none => startMin
  | some (lo, hi) =>
    if startMin < lo then lo
    else if hi < startMin then min (max lo startMin) hi
    else startMin

/-- The `\s+` middle of patterns like `for\s+dinner`. -/
def plusSpacesMid (r : List Char) : List (List Char) :=
  match r with
  | [] => []
  | c :: r2 => if isSpaceChar c then [dropLeadingSpaces r2] else []

/-- Embedding of `defaultStartByCategory`. -/
def defaultStartByCategory (category title : Option String) : ℤ :=
  let t := (lower (jsOrO title "")).data
  let c := lower (jsOrO category "")
  if wbContains t "brunch".data then BRUNCH_START_MIN + 30
  else if anyWb t ["breakfast".data, "bagel".data, "bagels".data] then 9 * 60
  else if anyWb t ["coffee".data, "latte".data, "espresso".data, "cafe".data]
    then 10 * 60 + 30
  else if anyWb t ["lunch".data, "sandwich".data, "slice".data, "pizza".data,
                   "burger".data, "deli".data, "tacos".data] then 12 * 60 + 30
  else if anyWb t ["dinner".data, "tasting".data, "omakase".data,
                   "reservation".data, "rez".data, "steak".data] then 18 * 60 + 30
  else if anyWb t ["show".data, "broadway".data, "comedy".data, "concert".data,
                   "theater".data, "theatre".data] then 19 * 60 + 30
  else if anyWb t ["bar".data, "cocktail".data, "speakeasy".data, "wine".data]
    then 21 * 60
  else if c = "breakfast" then 9 * 60
  else if c = "brunch" then BRUNCH_START_MIN + 30
  else if c = "coffee" then 10 * 60 + 30
  else if c = "museum" then 11 * 60
  else if c = "gallery" then 15 * 60
  else if c = "walk" then 14 * 60
  else if c = "park" then 14 * 60
  else if c = "view" then 16 * 60
  else if c = "lunch" then 12 * 60 + 30
  else if c = "dinner" then 18 * 60 + 30
  else if c = "show" then 19 * 60 + 30
  else if c = "bar" then 21 * 60
  else if c = "shopping" then 16 * 60
  else if c = "market" then 15 * 60
  else if c = "landmark" then 14 * 60
  else if c = "snack" then 16 * 60
  else 10 * 60

/-- Embedding of `inferCategoryFromName` (ordered keyword tests on the
lower-cased name). -/
def inferCategoryFromName (name : String) : Option String :=
  let t := (lower name).data
  if gapSeqAt plusSpacesMid "for".data "dinner".data none t ∨
      wbContains t "dinner".data then some "dinner"
  else if gapSeqAt plusSpacesMid "for".data "lunch".data none t ∨
      wbContains t "lunch".data then some "lunch"
  else if gapSeqAt plusSpacesMid "for".data "breakfast".data none t ∨
      anyWb t ["breakfast".data, "brunch".data, "bagel".data] then some "breakfast"
  else if gapSeqAt plusSpacesMid "for".data "drinks".data none t ∨
      gapSeqAt optDashSpaceMid "pre".data "theatre".data none t ∨
      anyWb t ["bar".data, "speakeasy".data, "cocktail".data, "wine".data]
    then some "bar"
  else if anyWb t ["park".data, "bryant park".data, "central park".data,
                   "high line".data, "highline".data] then some "park"
  else if anyWb t ["moma".data, "metropolitan museum".data, "the met".data,
                   "museum".data, "gallery".data] then
    (if wbContains t "gallery".data then some "gallery" else some "museum")
  else if anyWb t ["library".data, "nypl".data, "public library".data]
    then some "landmark"
  else if anyWb t ["bridge".data, "vessel".data, "observatory".data,
                   "top of the rock".data, "dumbo".data, "view".data]
    then some "view"
  else if anyWb t ["soho".data, "boutique".data, "shopping".data,
                   "madison avenue".data, "fifth avenue".data] then some "shopping"
  else if anyWb t ["coffee".data, "cafe".data, "espresso".data, "latte".data]
    then some "coffee"
  else if anyWb t ["pizza".data, "slice".data, "burger".data, "tacos".data,
                   "deli".data, "katz".data] then some "lunch"
  else if anyWb t ["steak".data, "omakase".data, "tasting".data,
                   "trattoria".data, "osteria".data, "ristorante".data]
    then some "dinner"
  else if anyWb t ["bakery".data, "cookie".data, "levain".data, "dessert".data,
                   "ice cream".data, "gelato".data] then some "snack"
  else if anyWb t ["show".data, "broadway".data, "theater".data,
                   "theatre".data, "comedy".data, "concert".data] then some "show"
  else if anyWb t ["stroll".data, "walk".data] then some "walk"
  else none

/-- Dataset match of a lock title (`dataset.find(p =>
p.name.toLowerCase().includes(title.toLowerCase()))`). -/
def resolveAnchorMatch (dataset : List Place) (title : String) : Option Place :=
  dataset.find? (fun p => containsCL (lcs p.name.data) (lower title).data)

/-- Anchor category resolution: explicit hint, catalog match, keyword
inference from title then description, else `custom`. -/
def resolveAnchorCategory (dataset : List Place) (l : LockObj) : String :=
  let title := trimS l.title
  let mtch := resolveAnchorMatch dataset title
  let inferredFromName := (inferCategoryFromName title).orElse
    (fun _ => inferCategoryFromName (jsOrO l.description ""))
  (l.category.orElse (fun _ =>
    (mtch.bind (·.category)).orElse (fun _ => inferredFromName))).getD "custom"

/-- Embedding of one entry of `plan`'s anchors map (src/lib/planner.ts lines
1067-1112): title, category, parsed start, daypart clamp, duration and
location resolution. -/
def buildAnchor (city : String) (dataset : List Place) (pace : Pace)
    (l : LockObj) : Scheduled :=
  let title := trimS l.title
  let mtch := resolveAnchorMatch dataset title
  let category := resolveAnchorCategory dataset l
  let explicit :=
    (parseClockMaybeWithContext l.time (some l.title) l.description).orElse (fun _ =>
    (parseClockMaybeWithContext l.start (some l.title) l.description).orElse (fun _ =>
    (parseDaypartWords (some l.title)).orElse (fun _ =>
    parseDaypartWords l.description)))
  let startMin0 := explicit.getD (defaultStartByCategory (some category) (some title))
  let startMin := clampStartToDaypart startMin0 (some l.title) l.description
  let duration :=
    max (max (l.duration_min.getD 0) (minFor (some category) pace))
      MIN_ANCHOR_DURATION
  let loc := jsOrO l.location
    (jsOrO (mtch.bind (·.location)) (jsOrO (mtch.bind (·.neighborhood)) city))
  let desc := jsOrO l.description
    (jsOrO (mtch.bind (·.description)) "User must-do")
  let url := jsOrOpt l.url (jsOrOpt (mtch.bind (·.url)) none)
  { title := jsOr title ((mtch.map (·.name)).getD "Must-do"),
    category := some category,
    location := some loc,
    description := desc,
    startMin := startMin,
    endMin := startMin + duration,
    isAnchor := true,
    url := url,
    lat := mtch.bind (·.lat),
    lng := mtch.bind (·.lng) }

/-! ## Copy polish (src/lib/llm.ts `formatTimelineWithLLM`, planner merge) -/

structure PlanStop where
  time : String
  title : String
  location : String
  description : String
  url : Option String := none
deriving DecidableEq, Repr

/-- Outcome of parsing the external polish response, mirroring the dynamic
checks in the source: `JSON.parse` throwing, a JSON array (returned as the
stops verbatim), an object with a `stops` array (returned verbatim), or any
other JSON value. -/
inductive PolishResponse
  | parseFail
  | arrayStops (xs : List PlanStop)
  | objWithStops (xs : List PlanStop)
  | otherJson
deriving DecidableEq, Repr

/-- Embedding of `formatTimelineWithLLM`: `response = none` models a missing
API key, a transport error or the timeout (all of which return the input
stops); otherwise the parse outcome decides the result exactly as in the
source. -/
def formatTimelineWithLLM (stops : List PlanStop)
    (response : Option PolishResponse) : List PlanStop :=
  match response with
  | none => stops
  | some .parseFail => stops
  | some (.arrayStops xs) => xs
  | some (.objWithStops xs) => xs
  | some .otherJson => stops

def mergeGo : List PlanStop → List PlanStop → List PlanStop
  | pol, [] => pol
  | pol, item :: rest =>
    if item.title = "TRANSIT_NOTE" then
      { time := "", title := "Transit", location := "",
        description := item.description, url := none } :: mergeGo pol rest
    else
      match pol with
      | [] => mergeGo [] rest
      | p :: ps => p :: mergeGo ps rest

/-- Embedding of `mergeTransitNotes`. -/
def mergeTransitNotes (polished rawWithNotes : List PlanStop) : List PlanStop :=
  mergeGo polished rawWithNotes

end TB

namespace TB

/-! ## Concrete instances used by witnesses and counterexamples -/

/-- Three-stop timeline for exercising the travel passes. -/
def cwAlpha : Scheduled :=
  { title := "Alpha Walk", location := some "Alpha Plaza", startMin := 540, endMin := 600 }

def cwBeta : Scheduled :=
  { title := "Beta Hall", location := some "Beta Plaza", startMin := 620, endMin := 680 }

def cwGamma : Scheduled :=
  { title := "Gamma Court", location := some "Gamma Plaza", startMin := 700, endMin := 760 }

/-- Oracle that reports 100 transit minutes into Beta Hall and fails for every
other pair. -/
def c1Oracle : AccurateOracle := fun _ d =>
  if containsS d "Beta" then some ⟨100, .transit⟩ else none

/-- Expected recompute outputs for the two-stop witness timeline. -/
def cwAlphaOut : Scheduled :=
  { cwAlpha with travelMinFromPrev := some 0, travelModeFromPrev := some Mode.walk }

def cwBetaOut : Scheduled :=
  { cwBeta with travelMinFromPrev := some 20, travelModeFromPrev := some Mode.transit }

/-- Same-location pair exercising the 10-minute spacing floor. -/
def cwDelta : Scheduled :=
  { title := "Delta Gallery", location := some "Delta Plaza", startMin := 540, endMin := 600 }

def cwEps : Scheduled :=
  { title := "Epsilon Hall", location := some "Delta Plaza", startMin := 600, endMin := 660 }

def cwDeltaOut : Scheduled :=
  { cwDelta with travelMinFromPrev := some 0, travelModeFromPrev := some Mode.walk }

def cwEpsOut : Scheduled :=
  { cwEps with startMin := 610, endMin := 670, travelMinFromPrev := some 10,
               travelModeFromPrev := some Mode.walk }

/-- A POI with no structured periods whose weekday text lists Sunday hours
9:00 AM - 5:00 PM. -/
def sundayHours : PlaceHours :=
  { weekdayText := ["Sunday: 9:00 AM - 5:00 PM"] }

/-- A coffee POI whose structured hours are open only 18:00-20:00 on Sundays:
closed throughout the morning. -/
def nightOwlHours : PlaceHours :=
  { periods := [{ openPt := some { day := some 0, time := "1800" },
                  closePt := some { day := some 0, time := "2000" } }] }

def nightOwl : Place :=
  { name := "Night Owl Coffee", category := some "coffee",
    location := some "Alpha Plaza", hours := some nightOwlHours }

/-- Engine state with an empty schedule and `nightOwl` as the only coffee
candidate, on Sunday 2025-10-12. -/
def c2State : PlannerState :=
  { city := "Zed City", date := "2025-10-12", pace := .balanced,
    isWeekend := true, preferredArea := "Alpha Plaza", coffeePlaces := [nightOwl] }

/-- A breakfast must-do anchor resolved to 10:00-11:00. -/
def brAnchor : Scheduled :=
  { title := "Brioche Must-Do", category := some "breakfast",
    location := some "Alpha Plaza", startMin := 600, endMin := 660,
    isAnchor := true }

def c3State : PlannerState :=
  { city := "Zed City", date := "2025-10-11", pace := .balanced,
    scheduled := [brAnchor] }

/-- Wheel-selection witness inputs: one open lunch place at 11:40. -/
def wLunchPlace : Place :=
  { name := "Midday Table", category := some "lunch", location := some "Alpha Plaza" }

def wOpts : PickOpts :=
  { currentMin := 700, currentLocation := "Alpha Plaza", dateISO := "2025-10-13",
    travelFromTo := fun _ _ => 0 }

/-- Wheel-selection witness inputs for the hours conjunct: one coffee place at
9:05 with no hours data. -/
def wCoffeePlace : Place :=
  { name := "Open Bean", category := some "coffee", location := some "Alpha Plaza" }

def wCoffeeOpts : PickOpts :=
  { currentMin := 545, currentLocation := "Alpha Plaza", dateISO := "2025-10-13",
    travelFromTo := fun _ _ => 0 }

/-- Gap-filler witness inputs. -/
def gapPrevStop : Scheduled :=
  { title := "Start Stop", location := some "Alpha Plaza", category := some "walk",
    startMin := 640, endMin := 700 }

def gapLunchPlace : Place :=
  { name := "Corner Lunch Counter", category := some "lunch",
    location := some "Alpha Plaza" }

def gapEnvW : GapEnv :=
  { city := "Zed City", pace := .balanced, dateISO := "2025-10-13" }

def gapPrevMorning : Scheduled :=
  { title := "Early Stroll", location := some "Alpha Plaza", category := some "walk",
    startMin := 480, endMin := 540 }

def gapCoffeePlace : Place :=
  { name := "Gap Espresso", category := some "coffee",
    location := some "Alpha Plaza" }

/-- The gap-filler entry built from `gapLunchPlace` in the 60-minute gap after
`gapPrevStop`. -/
def gapLunchEntry : Scheduled :=
  { title := "Corner Lunch Counter", location := some "Alpha Plaza",
    description := "Worth a stop nearby.", category := some "lunch",
    startMin := 700, endMin := 760, travelMinFromPrev := some 0,
    travelModeFromPrev := some Mode.walk }

/-- The gap-filler entry built from `gapCoffeePlace` in the 60-minute gap after
`gapPrevMorning`. -/
def gapCoffeeEntry : Scheduled :=
  { title := "Gap Espresso", location := some "Alpha Plaza",
    description := "Worth a stop nearby.", category := some "coffee",
    startMin := 540, endMin := 570, travelMinFromPrev := some 0,
    travelModeFromPrev := some Mode.walk }

/-- Polished-output stops for the copy-polish claim. -/
def psA : PlanStop :=
  { time := "9:00 AM – 10:00 AM", title := "Alpha Walk",
    location := "Alpha Plaza", description := "First stop." }

def psB : PlanStop :=
  { time := "10:20 AM – 11:20 AM", title := "Beta Hall",
    location := "Beta Plaza", description := "Second stop." }

def psNote : PlanStop :=
  { time := "", title := "TRANSIT_NOTE", location := "",
    description := "20 min transit to next stop" }

end TB

namespace TB

/-! ## Evidence views of the hours oracle (for stating claim C8) -/

/-- The structured-period verdict consulted first by `isLikelyClosedDuring`
(`none` when the POI has no period entries or the lookup is inconclusive). -/
def periodsEvidence (hours : Option PlaceHours) (startMin endMin : ℤ)
    (dateISO : String) : Option Bool :=
  match hours with
  | some h => if h.periods = [] then none else isClosedByPeriods h.periods startMin endMin dateISO
  | none => none

/-- The parsed hour ranges consulted second by `isLikelyClosedDuring`: the
target day's weekday-text line, when it exists and yields at least one
parseable range. -/
def weekdayEvidence (hours : Option PlaceHours) (dateISO : String) :
    Option (List (ℤ × ℤ)) :=
  match hours with
  | some h =>
    if h.weekdayText = [] then none
    else
      match jsGetDay dateISO with
      | none => none
      | some js =>
        match findDayLine h.weekdayText js with
        | none => none
        | some line =>
          let w := extractRanges line
          if w = [] then none else some w
  | none => none

/-! ## Proof infrastructure -/

/-- Adjacent-pair membership in a list. -/
def AdjPair (xs : List Scheduled) (p n : Scheduled) : Prop :=
  ∃ pre post, xs = pre ++ p :: n :: post

theorem adjPair_cons {a : Scheduled} {l : List Scheduled} {p n : Scheduled}
    (h : AdjPair (a :: l) p n) :
    (a = p ∧ ∃ post, l = n :: post) ∨ AdjPair l p n := by
  obtain ⟨pre, post, hpre⟩ := h
  cases pre with
  | nil =>
    simp only [List.nil_append, List.cons.injEq] at hpre
    exact Or.inl ⟨hpre.1, post, hpre.2⟩
  | cons x pre' =>
    simp only [List.cons_append, List.cons.injEq] at hpre
    exact Or.inr ⟨pre', post, hpre.2⟩

theorem guard_peel {α : Type} {c : Prop} [Decidable c] {k : Option α} {v : α}
    (h : (if c then none else k) = some v) : ¬ c ∧ k = some v := by
  by_cases hc : c
  · simp [hc] at h
  · simpa [hc] using h

theorem minutesTravel_nonneg (a b : String) : 0 ≤ minutesTravel a b := by
  unfold minutesTravel
  split
  · exact le_refl 0
  · exact le_max_left 0 _

/-! ### Facts about the recompute pass -/

theorem recomputeTravelFor_ge_est (gap est baseMin : ℤ) (d1 d2 : Bool)
    (h : 0 ≤ est) : est ≤ recomputeTravelFor gap est baseMin d1 d2 := by
  simp only [recomputeTravelFor]
  split_ifs <;> omega

theorem recomputeTravelFor_ge_base (gap est baseMin : ℤ) (d1 d2 : Bool) :
    baseMin ≤ recomputeTravelFor gap est baseMin d1 d2 := by
  simp only [recomputeTravelFor]
  split_ifs <;> omega

theorem recomputeTravel_ge_est (city : String) (prev s : Scheduled) :
    minutesTravel (jsOrO prev.location city) (jsOrO s.location city) ≤
      recomputeTravel city prev s :=
  recomputeTravelFor_ge_est _ _ _ _ _ (minutesTravel_nonneg _ _)

theorem recomputeTravel_ge_base (city : String) (prev s : Scheduled) :
    recomputeBaseMin prev s ≤ recomputeTravel city prev s :=
  recomputeTravelFor_ge_base _ _ _ _ _

theorem recomputeBaseMin_of_titles (prev s : Scheduled)
    (ht : ¬ prev.title = s.title) :
    10 ≤ recomputeBaseMin prev s ∧
      (¬ normalizeLocation prev.location = normalizeLocation s.location →
        recomputeBaseMin prev s = 12) := by
  simp only [recomputeBaseMin, if_neg ht]
  split_ifs with h2
  · exact ⟨by omega, fun hd => absurd h2.2.2 hd⟩
  · exact ⟨by omega, fun _ => rfl⟩

theorem recomputeShift_fields (prev s : Scheduled) (travel : ℤ) :
    (recomputeShift prev s travel).title = s.title ∧
    (recomputeShift prev s travel).location = s.location ∧
    (recomputeShift prev s travel).isAnchor = s.isAnchor ∧
    (recomputeShift prev s travel).endMin - (recomputeShift prev s travel).startMin =
      s.endMin - s.startMin ∧
    s.startMin ≤ (recomputeShift prev s travel).startMin := by
  simp only [recomputeShift]
  split_ifs with hs <;> refine ⟨rfl, rfl, rfl, ?_, ?_⟩ <;> (try simp) <;> omega

theorem recomputeShift_start_ge (prev s : Scheduled) (travel : ℤ) :
    prev.endMin + travel ≤ (recomputeShift prev s travel).startMin := by
  simp only [recomputeShift]
  split_ifs with hs <;> (try simp) <;> omega

theorem recomputeStep_fields (city : String) (prev s : Scheduled) :
    (recomputeStep city prev s).title = s.title ∧
    (recomputeStep city prev s).location = s.location ∧
    (recomputeStep city prev s).isAnchor = s.isAnchor ∧
    (recomputeStep city prev s).endMin - (recomputeStep city prev s).startMin =
      s.endMin - s.startMin ∧
    s.startMin ≤ (recomputeStep city prev s).startMin :=
  recomputeShift_fields prev s _

theorem recomputeStep_start_ge (city : String) (prev s : Scheduled) :
    prev.endMin + minutesTravel (jsOrO prev.location city) (jsOrO s.location city) ≤
      (recomputeStep city prev s).startMin := by
  have h1 := recomputeShift_start_ge prev s (recomputeTravel city prev s)
  have h2 := recomputeTravel_ge_est city prev s
  unfold recomputeStep
  omega

theorem recomputeStep_gap_base (city : String) (prev s : Scheduled)
    (ht : ¬ prev.title = s.title) :
    prev.endMin + 10 ≤ (recomputeStep city prev s).startMin ∧
      (¬ normalizeLocation prev.location = normalizeLocation s.location →
        prev.endMin + 12 ≤ (recomputeStep city prev s).startMin) := by
  have h1 := recomputeShift_start_ge prev s (recomputeTravel city prev s)
  have h2 := recomputeTravel_ge_base city prev s
  have h3 := recomputeBaseMin_of_titles prev s ht
  unfold recomputeStep
  constructor
  · omega
  · intro hd
    have := h3.2 hd
    omega

/-- Every adjacent pair in the recompute output arises as one `recomputeStep`
over the processed previous stop. -/
theorem recomputeGo_pairs (city : String) :
    ∀ (rest : List Scheduled) (prev p n : Scheduled),
      AdjPair (prev :: recomputeGo city prev rest) p n →
      ∃ s, n = recomputeStep city p s := by
  intro rest
  induction rest with
  | nil =>
    intro prev p n h
    obtain ⟨pre, post, hpre⟩ := h
    simp only [recomputeGo] at hpre
    cases pre <;> simp_all
  | cons s rest ih =>
    intro prev p n h
    rcases adjPair_cons h with ⟨rfl, post, hpost⟩ | h'
    · simp only [recomputeGo, List.cons.injEq] at hpost
      exact ⟨s, hpost.1.symm⟩
    · simp only [recomputeGo] at h'
      exact ih (recomputeStep city prev s) p n h'

theorem recompute_pairs (city : String) (l : List Scheduled) (p n : Scheduled)
    (h : AdjPair (recomputeTravelMetadata l city) p n) :
    ∃ s, n = recomputeStep city p s := by
  cases l with
  | nil =>
    obtain ⟨pre, post, hpre⟩ := h
    simp only [recomputeTravelMetadata] at hpre
    cases pre <;> simp_all
  | cons first rest =>
    exact recomputeGo_pairs city rest _ p n h

end TB

namespace TB

/-! ## Claim C1 -/

/-- Claim C1 (amended): after any run of `recomputeTravelMetadata`, every
adjacent pair of stops satisfies the no-overlap invariant
`prev.endMin + travelMinutes(prev, next) ≤ next.startMin` (travel measured by
the planner's `minutesTravel` between the stops' locations, with the city as
fallback).  The subsequent accurate-travel refinement pass does not preserve
this: a failed external lookup for a pair that follows a successfully shifted
pair can leave the timeline violating the invariant (see the counterexample),
so the invariant is guaranteed after recomputation, not after refinement. -/
theorem C1_no_overlap_after_recompute (l : List Scheduled) (city : String)
    (p n : Scheduled) (h : AdjPair (recomputeTravelMetadata l city) p n) :
    p.endMin + minutesTravel (jsOrO p.location city) (jsOrO n.location city) ≤
      n.startMin := by
  obtain ⟨s, rfl⟩ := recompute_pairs city l p n h
  have hloc := (recomputeStep_fields city p s).2.1
  rw [hloc]
  exact recomputeStep_start_ge city p s

/-- Witness for C1: the invariant instantiated on a concrete two-stop
timeline, with the adjacency hypothesis discharged by evaluation. -/
theorem C1_no_overlap_witness :
    cwAlphaOut.endMin +
      minutesTravel (jsOrO cwAlphaOut.location "Zed City")
        (jsOrO cwBetaOut.location "Zed City") ≤ cwBetaOut.startMin :=
  C1_no_overlap_after_recompute [cwAlpha, cwBeta] "Zed City" cwAlphaOut cwBetaOut
    ⟨[], [], by decide⟩

/-- Counterexample for C1 as stated: starting from a recompute-stable
three-stop timeline, an accurate-travel pass whose lookup succeeds for the
first pair (100 minutes, shifting Beta Hall to 700-760) and fails for the
second pair leaves Beta Hall and Gamma Court overlapping outright, violating
`endMin + travelMinutes ≤ startMin` for that adjacent pair. -/
theorem C1_claim_counterexample :
    (applyAccurateTravelTimes c1Oracle [] "Zed City"
        (recomputeTravelMetadata [cwAlpha, cwBeta, cwGamma] "Zed City")).map
      (fun s => (s.title, s.location, s.startMin, s.endMin)) =
      [("Alpha Walk", some "Alpha Plaza", 540, 600),
       ("Beta Hall", some "Beta Plaza", 700, 760),
       ("Gamma Court", some "Gamma Plaza", 700, 760)] ∧
    ¬ (760 + minutesTravel "Beta Plaza" "Gamma Plaza" ≤ 700) := by
  decide

/-! ## Claim C10 -/

/-- Claim C10 (confirmed): after any run of `recomputeTravelMetadata`,
adjacent stops with different titles are separated by at least 10 minutes,
and by at least 12 minutes when their normalized location strings differ
(sharing a title is the only way to be back-to-back with zero gap). -/
theorem C10_min_spacing (l : List Scheduled) (city : String) (p n : Scheduled)
    (h : AdjPair (recomputeTravelMetadata l city) p n)
    (ht : ¬ p.title = n.title) :
    10 ≤ n.startMin - p.endMin ∧
      (¬ normalizeLocation p.location = normalizeLocation n.location →
        12 ≤ n.startMin - p.endMin) := by
  obtain ⟨s, rfl⟩ := recompute_pairs city l p n h
  have hf := recomputeStep_fields city p s
  have ht' : ¬ p.title = s.title := by rw [hf.1] at ht; exact ht
  have hg := recomputeStep_gap_base city p s ht'
  refine ⟨by omega, fun hd => ?_⟩
  have hd' : ¬ normalizeLocation p.location = normalizeLocation s.location := by
    rw [hf.2.1] at hd; exact hd
  have := hg.2 hd'
  omega

/-- Witness for C10: two differently-titled stops at the same normalized
location are pushed 10 minutes apart by the recompute pass. -/
theorem C10_min_spacing_witness :
    10 ≤ cwEpsOut.startMin - cwDeltaOut.endMin ∧
      (¬ normalizeLocation cwDeltaOut.location = normalizeLocation cwEpsOut.location →
        12 ≤ cwEpsOut.startMin - cwDeltaOut.endMin) :=
  C10_min_spacing [cwDelta, cwEps] "Zed City" cwDeltaOut cwEpsOut
    ⟨[], [], by decide⟩ (by decide)

end TB

namespace TB

/-! ## Claim C3 -/

theorem recomputeGo_forall2 (city : String) :
    ∀ (rest : List Scheduled) (prev : Scheduled),
      List.Forall₂ (fun s s' => s.startMin ≤ s'.startMin ∧
        s'.endMin - s'.startMin = s.endMin - s.startMin ∧
        s'.title = s.title ∧ s'.isAnchor = s.isAnchor)
        rest (recomputeGo city prev rest) := by
  intro rest
  induction rest with
  | nil => intro prev; simp [recomputeGo]
  | cons s rest ih =>
    intro prev
    simp only [recomputeGo]
    have hf := recomputeStep_fields city prev s
    exact List.Forall₂.cons ⟨hf.2.2.2.2, hf.2.2.2.1, hf.1, hf.2.2.1⟩ (ih _)

theorem isBreakfastCat_override (cat : Option String)
    (h : isBreakfastCat cat = true) :
    (catDurationOverride (lower (jsOrO cat ""))).getD 45 = 45 := by
  match cat with
  | none => simp [isBreakfastCat] at h
  | some c =>
    simp only [isBreakfastCat] at h
    by_cases hc : c = ""
    · simp [hc] at h
    · rw [if_neg hc] at h
      simp only [jsOrO, if_neg hc]
      have h' : lower c = "breakfast" ∨ lower c = "coffee" := by
        simpa using h
      rcases h' with h' | h' <;> rw [h'] <;> decide

/-- Claim C3 (amended): the anchor-placement step of `plan` and the
travel-metadata recomputation never move a stop earlier and preserve its
duration, title and anchor flag; the morning-kickoff pass, however, moves a
first-of-day stop whose category is breakfast or coffee — anchors included —
back to the day start when it begins later, preserving its duration whenever
that duration is at least the 45-minute category floor (anchor durations are
always at least 60). -/
theorem C3_anchor_never_earlier :
    (∀ (city : String) (currentMin : ℤ) (currentLocation : String) (a : Scheduled),
      a.startMin ≤ (placeAnchorStep city currentMin currentLocation a).startMin ∧
      (placeAnchorStep city currentMin currentLocation a).endMin -
        (placeAnchorStep city currentMin currentLocation a).startMin =
          a.endMin - a.startMin ∧
      (placeAnchorStep city currentMin currentLocation a).isAnchor = a.isAnchor) ∧
    (∀ (l : List Scheduled) (city : String),
      List.Forall₂ (fun s s' => s.startMin ≤ s'.startMin ∧
        s'.endMin - s'.startMin = s.endMin - s.startMin ∧
        s'.title = s.title ∧ s'.isAnchor = s.isAnchor)
        l (recomputeTravelMetadata l city)) ∧
    (∀ (st : PlannerState) (first : Scheduled) (rest : List Scheduled),
      sortByStart st.scheduled = first :: rest →
      isBreakfastCat first.category = true →
      st.dayStartMin < first.startMin →
      45 ≤ first.endMin - first.startMin →
      ((ensureMorningKickoff st).scheduled.head?).map (·.startMin) =
          some st.dayStartMin ∧
      ((ensureMorningKickoff st).scheduled.head?).map
          (fun f => f.endMin - f.startMin) = some (first.endMin - first.startMin) ∧
      ((ensureMorningKickoff st).scheduled.head?).map (·.title) =
          some first.title ∧
      ((ensureMorningKickoff st).scheduled.head?).map (·.isAnchor) =
          some first.isAnchor ∧
      (ensureMorningKickoff st).scheduled.tail = rest) := by
  refine ⟨?_, ?_, ?_⟩
  · intro city currentMin currentLocation a
    refine ⟨?_, ?_, ?_⟩ <;> simp [placeAnchorStep] <;> omega
  · intro l city
    cases l with
    | nil => simp [recomputeTravelMetadata]
    | cons first rest =>
      simp only [recomputeTravelMetadata]
      exact List.Forall₂.cons (by simp) (recomputeGo_forall2 city rest _)
  · intro st first rest hsort hbk hlate hdur
    have hover := isBreakfastCat_override first.category hbk
    unfold ensureMorningKickoff
    simp only [hsort, List.head?_cons, if_pos hbk, if_pos hlate]
    rw [hover]
    have hmax : max (first.endMin - first.startMin) 45 = first.endMin - first.startMin := by
      omega
    rw [hmax]
    refine ⟨rfl, by simp, rfl, rfl, rfl⟩

/-- Witness for C3: the conjuncts instantiated at a concrete anchor placement,
a concrete timeline and the concrete breakfast-anchor kickoff state. -/
theorem C3_anchor_never_earlier_witness :
    (brAnchor.startMin ≤
        (placeAnchorStep "Zed City" 700 "Beta Plaza" brAnchor).startMin) ∧
    ((ensureMorningKickoff c3State).scheduled.head?).map (·.startMin) =
        some c3State.dayStartMin := by
  refine ⟨(C3_anchor_never_earlier.1 "Zed City" 700 "Beta Plaza" brAnchor).1, ?_⟩
  exact (C3_anchor_never_earlier.2.2 c3State brAnchor [] (by decide) (by decide)
    (by decide) (by decide)).1

/-- Counterexample for C3 as stated: the morning-kickoff pass moves the
breakfast anchor `Brioche Must-Do` (resolved 10:00-11:00, first stop of the
day) back to the 09:00 day start — strictly earlier than its resolved start —
while keeping its 60-minute duration and anchor flag. -/
theorem C3_claim_counterexample :
    (ensureMorningKickoff c3State).scheduled.map
        (fun s => (s.title, s.startMin, s.endMin, s.isAnchor)) =
      [("Brioche Must-Do", 540, 600, true)] ∧
    brAnchor.startMin = 600 ∧ brAnchor.isAnchor = true ∧ (540 : ℤ) < 600 := by
  decide

end TB

namespace TB

/-! ## Claim C5 -/

/-- Claim C5 (amended): the feasibility helper `travelWithinLimit` enforces
the 60-minute ceiling only when the destination is a non-anchor (with
non-positive estimates always within limit), and is unconditionally `true`
for anchor destinations — the engine never applies a 120-minute feasibility
ceiling.  The `MAX_ANCHOR_TRAVEL_MIN = 120` constant is used only in output
assembly, where it clamps the reported travel minutes between anchor-adjacent
stops. -/
theorem C5_travel_ceiling :
    (∀ m : ℤ, travelWithinLimit m true = true) ∧
    (∀ m : ℤ, travelWithinLimit m false = decide (m ≤ 60)) ∧
    (∀ (a b : Bool) (t : ℤ),
      clampedOutputTravel a b t ≤
        (if a || b then MAX_ANCHOR_TRAVEL_MIN else MAX_NON_ANCHOR_TRAVEL_MIN)) := by
  refine ⟨?_, ?_, ?_⟩
  · intro m
    simp only [travelWithinLimit]
    split_ifs <;> rfl
  · intro m
    by_cases h1 : m ≤ 0
    · have h2 : m ≤ 60 := by omega
      simp [travelWithinLimit, h1, h2]
    · simp [travelWithinLimit, h1, MAX_NON_ANCHOR_TRAVEL_MIN]
  · intro a b t
    simp only [clampedOutputTravel]
    cases a <;> cases b <;> simp [MAX_ANCHOR_TRAVEL_MIN, MAX_NON_ANCHOR_TRAVEL_MIN] <;> omega

/-- Counterexample for C5 as stated: a 200-minute travel estimate towards an
anchor destination is reported within limit by `travelWithinLimit`, although
200 exceeds the claimed 120-minute anchor ceiling (which would have to make
such a candidate infeasible). -/
theorem C5_claim_counterexample :
    travelWithinLimit 200 true = true ∧ ¬ ((200 : ℤ) ≤ MAX_ANCHOR_TRAVEL_MIN) := by
  decide

/-! ## Claim C6 -/

theorem haversineKm_self (p : ℚ × ℚ) : haversineKm p p = 0 := by
  simp [haversineKm]

/-- Evaluation of the geometric estimator at the equal resolvable endpoint
`"SoHo"`: the walking model's 8-minute floor applies. -/
theorem travelMinutesBetween_soho : travelMinutesBetween "SoHo" "SoHo" = 8 := by
  have hc : centroidFor "SoHo" = some ((40.7233 : ℚ), (-74.0030 : ℚ)) := rfl
  unfold travelMinutesBetween
  rw [if_neg (by decide), hc]
  simp only [haversineKm_self]
  rw [if_neg (by norm_num)]
  rw [if_pos ?side]
  case side =>
    constructor
    · norm_num
    · decide
  simp only [walkingMinutesKm]
  norm_num

/-- Claim C6 (amended): the planner wrapper `minutesTravel` is an identity at
equal endpoints (`minutesTravel a a = 0` for every location string), but the
underlying geometric estimator is not: for an equal resolvable location the
walking model's 8-minute floor yields `travelMinutesBetween a a = 8`. -/
theorem C6_travel_identity :
    (∀ a : String, minutesTravel a a = 0) ∧
    travelMinutesBetween "SoHo" "SoHo" = 8 := by
  refine ⟨?_, travelMinutesBetween_soho⟩
  intro a
  simp [minutesTravel]

/-- Counterexample for C6 as stated: `travelMinutesBetween "SoHo" "SoHo"`
returns the 8-minute walking floor, not 0. -/
theorem C6_claim_counterexample :
    travelMinutesBetween "SoHo" "SoHo" = 8 ∧ ¬ ((8 : ℤ) = 0) :=
  ⟨travelMinutesBetween_soho, by decide⟩

/-! ## Claim C7 -/

/-- Claim C7 (confirmed): the duration of every anchor built from a must-do
lock equals the maximum of the lock's explicit duration hint (0 when absent),
the pace-adjusted category floor `minFor(category, pace)` for the resolved
category, and the absolute 60-minute anchor minimum. -/
theorem C7_anchor_duration (city : String) (dataset : List Place) (pace : Pace)
    (l : LockObj) :
    (buildAnchor city dataset pace l).endMin -
        (buildAnchor city dataset pace l).startMin =
      max (max (l.duration_min.getD 0)
        (minFor (some (resolveAnchorCategory dataset l)) pace))
        MIN_ANCHOR_DURATION := by
  simp only [buildAnchor]
  omega

/-! ## Claim C9 -/

/-- Claim C9 (amended): the polish caller keeps the original stops only on
transport-level failures (missing key, error, timeout — `response = none`),
unparseable JSON, or JSON that is neither an array nor an object with a
`stops` array; a response that parses to an array is adopted verbatim, even
when its order, times or count differ from the input stops. -/
theorem C9_polish_acceptance :
    (∀ stops : List PlanStop, formatTimelineWithLLM stops none = stops) ∧
    (∀ stops : List PlanStop,
      formatTimelineWithLLM stops (some .parseFail) = stops) ∧
    (∀ stops : List PlanStop,
      formatTimelineWithLLM stops (some .otherJson) = stops) ∧
    (∀ (stops xs : List PlanStop),
      formatTimelineWithLLM stops (some (.arrayStops xs)) = xs) ∧
    (∀ (stops xs : List PlanStop),
      formatTimelineWithLLM stops (some (.objWithStops xs)) = xs) :=
  ⟨fun _ => rfl, fun _ => rfl, fun _ => rfl, fun _ _ => rfl, fun _ _ => rfl⟩

/-- Counterexample for C9 as stated: a polish response that drops the first
stop (changing count and times) still parses as an array, so it is accepted
verbatim rather than discarded, and the final merged output's non-Transit
stops no longer equal the pre-polish stops. -/
theorem C9_claim_counterexample :
    formatTimelineWithLLM [psA, psB] (some (.arrayStops [psB])) = [psB] ∧
    ¬ ([psB] = [psA, psB]) ∧
    (mergeTransitNotes (formatTimelineWithLLM [psA, psB] (some (.arrayStops [psB])))
        [psA, psNote, psB]).filter (fun s => ¬ s.title = "Transit") = [psB] := by
  decide

end TB

namespace TB


theorem isLikely_cases (hours : Option PlaceHours) (category : String)
    (s e : ℤ) (d : String) :
    isLikelyClosedDuring hours category s e d =
      (match periodsEvidence hours s e d with
       | some b => if b then 2 else 0
       | none =>
         match weekdayEvidence hours d with
         | some ws =>
           if ws.any (fun w => ¬ (e ≤ w.1) ∧ ¬ (s ≥ w.2)) then 0 else 2
         | none =>
           match approximateHoursForCategory category with
           | some approx =>
             if approx.any (fun w => ¬ (e ≤ w.1) ∧ ¬ (s ≥ w.2)) then 0 else 1
           | none => 0) := by
  cases hours with
  | none => rfl
  | some h =>
    simp only [isLikelyClosedDuring, periodsEvidence, weekdayEvidence]
    by_cases hp : h.periods = []
    · simp only [hp, if_pos]
      by_cases hw : h.weekdayText = []
      · simp [hw]
      · simp only [hw, if_neg]
        cases hjs : jsGetDay d with
        | none => simp
        | some js =>
          cases hl : findDayLine h.weekdayText js with
          | none => simp [hl]
          | some line =>
            by_cases hr : extractRanges line = []
            · simp [hl, hr]
            · simp [hl, hr]
              split_ifs <;> rfl
    · simp only [hp, if_neg]
      cases hcp : isClosedByPeriods h.periods s e d with
      | none =>
        simp only []
        by_cases hw : h.weekdayText = []
        · simp [hw]
        · simp only [hw, if_neg]
          cases hjs : jsGetDay d with
          | none => simp
          | some js =>
            cases hl : findDayLine h.weekdayText js with
            | none => simp [hl]
            | some line =>
              by_cases hr : extractRanges line = []
              · simp [hl, hr]
              · simp [hl, hr]
                split_ifs <;> rfl
      | some b => cases b <;> simp



/-- **C8.** The hours oracle consults evidence in the fixed order: structured
periods first (a verdict there is final), then the parsed weekday-text ranges
for the target day (overlap with any range means open, otherwise closed,
independent of the category table), and with no period verdict, no weekday
ranges and no category-table entry it returns 0 (open), so an evidence-free
POI is never excluded on hours grounds. -/
theorem C8_oracle_order (hours : Option PlaceHours) (category : String)
    (s e : ℤ) (d : String) :
    (periodsEvidence hours s e d = none → weekdayEvidence hours d = none →
      approximateHoursForCategory category = none →
      isLikelyClosedDuring hours category s e d = 0) ∧
    (∀ v, periodsEvidence hours s e d = some v →
      isLikelyClosedDuring hours category s e d = if v then 2 else 0) ∧
    (∀ ws, periodsEvidence hours s e d = none → weekdayEvidence hours d = some ws →
      isLikelyClosedDuring hours category s e d =
        if ws.any (fun w => ¬ (e ≤ w.1) ∧ ¬ (s ≥ w.2)) then 0 else 2) := by
  refine ⟨?_, ?_, ?_⟩
  · intro h1 h2 h3
    rw [isLikely_cases, h1, h2, h3]
  · intro v hv
    rw [isLikely_cases, hv]
  · intro ws h1 h2
    rw [isLikely_cases, h1, h2]

/-- Witness for C8 at concrete inputs: an hours-free POI with unknown category
is open everywhere; the period-closed Night Owl fixture is reported closed at
09:00–09:30; a weekday-text-only POI open 9 AM–5 PM is open at 10:00–11:00. -/
theorem C8_oracle_order_witness :
    isLikelyClosedDuring none "custom" 600 660 "2025-10-12" = 0 ∧
    isLikelyClosedDuring (some nightOwlHours) "coffee" 540 570 "2025-10-12" = 2 ∧
    isLikelyClosedDuring (some sundayHours) "custom" 600 660 "2025-10-12" = 0 :=
  ⟨(C8_oracle_order none "custom" 600 660 "2025-10-12").1
      (by decide) (by decide) (by decide),
   ((C8_oracle_order (some nightOwlHours) "coffee" 540 570 "2025-10-12").2.1
      true (by decide)).trans (by decide),
   ((C8_oracle_order (some sundayHours) "custom" 600 660 "2025-10-12").2.2
      [(540, 1020)] (by decide) (by decide)).trans (by decide)⟩


end TB

namespace TB

theorem wheel_guards {city : String} {pace : Pace}
    {wECM : String → ℤ → Bool} {score : Place → String → ℚ}
    {opts : PickOpts} {cat : String} {p : Place} {sc : ℚ}
    (h : wheelFeasibleScore city pace wECM score opts cat p = some sc) :
    ¬ (lower cat = "breakfast" ∧
        (wheelStart city opts p < BREAKFAST_EARLIEST_MIN ∨
         BREAKFAST_LATEST_MIN ≤ wheelStart city opts p)) ∧
    ¬ (lower cat = "lunch" ∧
        (wheelStart city opts p < LUNCH_START_MIN ∨
         LUNCH_WINDOW_END ≤ wheelStart city opts p)) ∧
    ¬ (isBarCategory (some (lower cat)) = true ∧
        wheelStart city opts p < FIVE_PM_MIN) ∧
    ¬ (0 < isLikelyClosedDuring p.hours (wheelHoursCategory cat p)
          (wheelStart city opts p)
          (wheelStart city opts p + plannedDurationMinutes p (lower cat) pace)
          opts.dateISO) := by
  simp only [wheelFeasibleScore] at h
  obtain ⟨-, h⟩ := guard_peel h
  obtain ⟨-, h⟩ := guard_peel h
  obtain ⟨-, h⟩ := guard_peel h
  obtain ⟨-, h⟩ := guard_peel h
  obtain ⟨-, h⟩ := guard_peel h
  obtain ⟨-, h⟩ := guard_peel h
  obtain ⟨-, h⟩ := guard_peel h
  obtain ⟨-, h⟩ := guard_peel h
  obtain ⟨-, h⟩ := guard_peel h
  obtain ⟨-, h⟩ := guard_peel h
  obtain ⟨-, h⟩ := guard_peel h
  obtain ⟨-, h⟩ := guard_peel h
  obtain ⟨g13, h⟩ := guard_peel h
  obtain ⟨-, h⟩ := guard_peel h
  obtain ⟨g15, h⟩ := guard_peel h
  obtain ⟨-, h⟩ := guard_peel h
  obtain ⟨-, h⟩ := guard_peel h
  obtain ⟨-, h⟩ := guard_peel h
  obtain ⟨-, h⟩ := guard_peel h
  obtain ⟨g20, h⟩ := guard_peel h
  obtain ⟨g21, -⟩ := guard_peel h
  exact ⟨g13, g15, g20, g21⟩

theorem gap_guards {env : GapEnv} {prev : Scheduled} {next : Option Scheduled}
    {gap : ℤ} {p : Place} {s : Scheduled} {q : ℚ}
    (h : gapCandidate env prev next gap p = some (s, q)) :
    ¬ (lower (jsOrO p.category "") = "breakfast" ∧
        (s.startMin < BREAKFAST_EARLIEST_MIN ∨
         BREAKFAST_LATEST_MIN ≤ s.startMin)) ∧
    ¬ (lower (jsOrO p.category "") = "lunch" ∧
        (s.startMin < LUNCH_START_MIN ∨ LUNCH_WINDOW_END ≤ s.startMin)) ∧
    ¬ (isBarCategory (some (lower (jsOrO p.category ""))) = true ∧
        s.startMin < FIVE_PM_MIN) ∧
    ¬ (0 < isLikelyClosedDuring p.hours (gapHoursCategory p) s.startMin
          s.endMin env.dateISO) := by
  simp only [gapCandidate] at h
  obtain ⟨-, h⟩ := guard_peel h
  obtain ⟨-, h⟩ := guard_peel h
  obtain ⟨-, h⟩ := guard_peel h
  obtain ⟨-, h⟩ := guard_peel h
  obtain ⟨-, h⟩ := guard_peel h
  obtain ⟨-, h⟩ := guard_peel h
  obtain ⟨-, h⟩ := guard_peel h
  obtain ⟨-, h⟩ := guard_peel h
  obtain ⟨-, h⟩ := guard_peel h
  obtain ⟨-, h⟩ := guard_peel h
  obtain ⟨g11, h⟩ := guard_peel h
  obtain ⟨-, h⟩ := guard_peel h
  obtain ⟨-, h⟩ := guard_peel h
  obtain ⟨g14, h⟩ := guard_peel h
  obtain ⟨-, h⟩ := guard_peel h
  obtain ⟨-, h⟩ := guard_peel h
  obtain ⟨-, h⟩ := guard_peel h
  obtain ⟨-, h⟩ := guard_peel h
  obtain ⟨-, h⟩ := guard_peel h
  obtain ⟨-, h⟩ := guard_peel h
  obtain ⟨-, h⟩ := guard_peel h
  obtain ⟨g22, h⟩ := guard_peel h
  obtain ⟨g23, h⟩ := guard_peel h
  obtain ⟨-, h⟩ := guard_peel h
  rw [Option.some.injEq, Prod.mk.injEq] at h
  obtain ⟨hs, -⟩ := h
  subst hs
  exact ⟨g11, g14, g22, g23⟩

end TB

namespace TB

/-- **C4.** Category daypart windows are hard feasibility filters: whatever the
score function, a candidate the greedy wheel accepts for desired category
"lunch" starts in [690, 840), one accepted for "breakfast" starts in
[540, 600), and one accepted for a bar/drinks category starts no earlier than
1020; likewise for a candidate the gap filler accepts, keyed on the place's own
category.  Violating candidates yield no score at all (they are discarded, not
penalized). -/
theorem C4_daypart_hard_filters :
    (∀ city pace wECM score opts cat p sc,
      wheelFeasibleScore city pace wECM score opts cat p = some sc →
        ((lower cat = "lunch" →
            690 ≤ wheelStart city opts p ∧ wheelStart city opts p < 840) ∧
         (lower cat = "breakfast" →
            540 ≤ wheelStart city opts p ∧ wheelStart city opts p < 600) ∧
         (isBarCategory (some (lower cat)) = true →
            1020 ≤ wheelStart city opts p))) ∧
    (∀ env prev next gap p s q,
      gapCandidate env prev next gap p = some (s, q) →
        ((lower (jsOrO p.category "") = "lunch" →
            690 ≤ s.startMin ∧ s.startMin < 840) ∧
         (lower (jsOrO p.category "") = "breakfast" →
            540 ≤ s.startMin ∧ s.startMin < 600) ∧
         (isBarCategory (some (lower (jsOrO p.category ""))) = true →
            1020 ≤ s.startMin))) := by
  constructor
  · intro city pace wECM score opts cat p sc h
    obtain ⟨g13, g15, g20, -⟩ := wheel_guards h
    simp only [BREAKFAST_EARLIEST_MIN, BREAKFAST_LATEST_MIN, LUNCH_START_MIN,
      LUNCH_WINDOW_END, FIVE_PM_MIN] at g13 g15 g20
    refine ⟨fun hc => ⟨?_, ?_⟩, fun hc => ⟨?_, ?_⟩, fun hc => ?_⟩
    · by_contra hx; exact g15 ⟨hc, Or.inl (by omega)⟩
    · by_contra hx; exact g15 ⟨hc, Or.inr (by omega)⟩
    · by_contra hx; exact g13 ⟨hc, Or.inl (by omega)⟩
    · by_contra hx; exact g13 ⟨hc, Or.inr (by omega)⟩
    · by_contra hx; exact g20 ⟨hc, by omega⟩
  · intro env prev next gap p s q h
    obtain ⟨g11, g14, g22, -⟩ := gap_guards h
    simp only [BREAKFAST_EARLIEST_MIN, BREAKFAST_LATEST_MIN, LUNCH_START_MIN,
      LUNCH_WINDOW_END, FIVE_PM_MIN] at g11 g14 g22
    refine ⟨fun hc => ⟨?_, ?_⟩, fun hc => ⟨?_, ?_⟩, fun hc => ?_⟩
    · by_contra hx; exact g14 ⟨hc, Or.inl (by omega)⟩
    · by_contra hx; exact g14 ⟨hc, Or.inr (by omega)⟩
    · by_contra hx; exact g11 ⟨hc, Or.inl (by omega)⟩
    · by_contra hx; exact g11 ⟨hc, Or.inr (by omega)⟩
    · by_contra hx; exact g22 ⟨hc, by omega⟩

set_option maxHeartbeats 4000000 in
/-- Witness for C4: the wheel accepts the 11:40 lunch fixture inside the lunch
window, and the gap filler accepts the lunch fixture at 700 inside the window. -/
theorem C4_daypart_hard_filters_witness :
    (690 ≤ wheelStart "Zed City" wOpts wLunchPlace ∧
     wheelStart "Zed City" wOpts wLunchPlace < 840) ∧
    (690 ≤ gapLunchEntry.startMin ∧ gapLunchEntry.startMin < 840) :=
  ⟨(C4_daypart_hard_filters.1 "Zed City" Pace.balanced (fun _ _ => false)
      (fun _ _ => (0 : ℚ)) wOpts "lunch" wLunchPlace 0 (by
        norm_num +decide [wheelFeasibleScore, wheelTravel, wheelStart,
          wheelHoursCategory, wOpts, wLunchPlace, areaKeyFromPlace,
          travelWithinLimit, isBarCategory, isFoodCategory, isMealCategory,
          isMorningMealCategory, isLunchy, isLikelyClosedDuring,
          approximateHoursForCategory, plannedDurationMinutes,
          durationMultiplierFor, PACE_DURATION_MULTIPLIER, minFor, baseDuration,
          catDurationOverride, jsOrSO, jsOr, jsOrO, lower, MIN_FLEX_BLOCK_MIN,
          LUNCH_START_MIN, LUNCH_WINDOW_END, GENERAL_ACTIVITY_START_MIN,
          BREAKFAST_EARLIEST_MIN, BREAKFAST_LATEST_MIN, BRUNCH_START_MIN,
          BRUNCH_END_MIN, AFTERNOON_START_MIN, AFTERNOON_END_MIN,
          DINNER_START_MIN, FIVE_PM_MIN, MAX_NON_ANCHOR_TRAVEL_MIN,
          MAX_ANCHOR_TRAVEL_MIN])).1 (by decide),
   (C4_daypart_hard_filters.2 gapEnvW gapPrevStop none 60 gapLunchPlace
      gapLunchEntry 0 (by
        norm_num +decide [gapCandidate, gapHoursCategory, gapLunchEntry,
          minutesTravel, gapPrevStop, gapLunchPlace, gapEnvW, lookupPlaceByName,
          travelWithinLimit, recommendedTravelMode, plannedDurationMinutes,
          durationMultiplierFor, PACE_DURATION_MULTIPLIER, minFor, baseDuration,
          catDurationOverride, jsOrSO, jsOr, jsOrO, lower, isLikelyClosedDuring,
          approximateHoursForCategory, isBarCategory, isFoodCategory,
          isMealCategory, isMorningMealCategory, isLunchy, MIN_FLEX_BLOCK_MIN,
          DAY_END_MIN, GENERAL_ACTIVITY_START_MIN, BREAKFAST_EARLIEST_MIN,
          BREAKFAST_LATEST_MIN, BRUNCH_START_MIN, BRUNCH_END_MIN,
          LUNCH_START_MIN, LUNCH_WINDOW_END, AFTERNOON_START_MIN,
          AFTERNOON_END_MIN, DINNER_START_MIN, FIVE_PM_MIN,
          MAX_NON_ANCHOR_TRAVEL_MIN, MAX_ANCHOR_TRAVEL_MIN])).1 (by decide)⟩

/-- **C2 (corrected).** The greedy wheel and the gap filler never accept a
candidate whose hours the oracle reports closed over the candidate's occupied
window.  (The meal-enforcement passes perform no such check; see the
counterexample.) -/
theorem C2_hours_hard_skip :
    (∀ city pace wECM score opts cat p sc,
      wheelFeasibleScore city pace wECM score opts cat p = some sc →
        ¬ (0 < isLikelyClosedDuring p.hours (wheelHoursCategory cat p)
              (wheelStart city opts p)
              (wheelStart city opts p +
                plannedDurationMinutes p (lower cat) pace)
              opts.dateISO)) ∧
    (∀ env prev next gap p s q,
      gapCandidate env prev next gap p = some (s, q) →
        ¬ (0 < isLikelyClosedDuring p.hours (gapHoursCategory p) s.startMin
              s.endMin env.dateISO)) := by
  constructor
  · intro city pace wECM score opts cat p sc h
    exact (wheel_guards h).2.2.2
  · intro env prev next gap p s q h
    exact (gap_guards h).2.2.2

set_option maxHeartbeats 4000000 in
/-- Witness for C2: concrete accepted wheel and gap candidates whose windows
the oracle does not report closed. -/
theorem C2_hours_hard_skip_witness :
    ¬ (0 < isLikelyClosedDuring wCoffeePlace.hours
          (wheelHoursCategory "coffee" wCoffeePlace)
          (wheelStart "Zed City" wCoffeeOpts wCoffeePlace)
          (wheelStart "Zed City" wCoffeeOpts wCoffeePlace +
            plannedDurationMinutes wCoffeePlace (lower "coffee") Pace.balanced)
          wCoffeeOpts.dateISO) ∧
    ¬ (0 < isLikelyClosedDuring gapCoffeePlace.hours
          (gapHoursCategory gapCoffeePlace)
          gapCoffeeEntry.startMin gapCoffeeEntry.endMin gapEnvW.dateISO) :=
  ⟨C2_hours_hard_skip.1 "Zed City" Pace.balanced (fun _ _ => false)
      (fun _ _ => (0 : ℚ)) wCoffeeOpts "coffee" wCoffeePlace 0 (by
        norm_num +decide [wheelFeasibleScore, wheelTravel, wheelStart,
          wheelHoursCategory, wCoffeeOpts, wCoffeePlace, areaKeyFromPlace,
          travelWithinLimit, isBarCategory, isFoodCategory, isMealCategory,
          isMorningMealCategory, isLunchy, isLikelyClosedDuring,
          approximateHoursForCategory, plannedDurationMinutes,
          durationMultiplierFor, PACE_DURATION_MULTIPLIER, minFor, baseDuration,
          catDurationOverride, jsOrSO, jsOr, jsOrO, lower, MIN_FLEX_BLOCK_MIN,
          LUNCH_START_MIN, LUNCH_WINDOW_END, GENERAL_ACTIVITY_START_MIN,
          BREAKFAST_EARLIEST_MIN, BREAKFAST_LATEST_MIN, BRUNCH_START_MIN,
          BRUNCH_END_MIN, AFTERNOON_START_MIN, AFTERNOON_END_MIN,
          DINNER_START_MIN, FIVE_PM_MIN, MAX_NON_ANCHOR_TRAVEL_MIN,
          MAX_ANCHOR_TRAVEL_MIN]),
   C2_hours_hard_skip.2 gapEnvW gapPrevMorning none 60 gapCoffeePlace
      gapCoffeeEntry 24 (by
        norm_num +decide [gapCandidate, gapHoursCategory, gapCoffeeEntry,
          minutesTravel, gapPrevMorning, gapCoffeePlace, gapEnvW,
          lookupPlaceByName, travelWithinLimit, recommendedTravelMode,
          plannedDurationMinutes, durationMultiplierFor,
          PACE_DURATION_MULTIPLIER, minFor, baseDuration, catDurationOverride,
          jsOrSO, jsOr, jsOrO, lower, isLikelyClosedDuring,
          approximateHoursForCategory, isBarCategory, isFoodCategory,
          isMealCategory, isMorningMealCategory, isLunchy, MIN_FLEX_BLOCK_MIN,
          DAY_END_MIN, GENERAL_ACTIVITY_START_MIN, BREAKFAST_EARLIEST_MIN,
          BREAKFAST_LATEST_MIN, BRUNCH_START_MIN, BRUNCH_END_MIN,
          LUNCH_START_MIN, LUNCH_WINDOW_END, AFTERNOON_START_MIN,
          AFTERNOON_END_MIN, DINNER_START_MIN, FIVE_PM_MIN,
          MAX_NON_ANCHOR_TRAVEL_MIN, MAX_ANCHOR_TRAVEL_MIN])⟩

set_option maxHeartbeats 8000000 in
/-- Counterexample to C2 as stated: the morning-kickoff meal-enforcement pass
schedules the Night Owl coffee fixture at 09:00-09:30 although the hours
oracle reports it closed (2) throughout that window, so not every scheduling
path excludes oracle-closed POIs. -/
theorem C2_claim_counterexample :
    (ensureMorningKickoff c2State).scheduled.map
        (fun s => (s.title, s.startMin, s.endMin)) =
      [("Night Owl Coffee", 540, 570)] ∧
    nightOwl.hours = some nightOwlHours ∧
    0 < isLikelyClosedDuring nightOwl.hours "coffee" 540 570 c2State.date := by
  refine ⟨?_, rfl, by decide⟩
  norm_num +decide [ensureMorningKickoff, sortByStart, insertByStart, kickoffSecond,
    pickCoffeeCandidate, coffeeScore, ssMem, alGetD, areaKeyFromPlace,
    areaKeyFromString, previousDistinctArea, prevDistinctGo, recentAreaRunLength,
    recentRunGo, areaVisitPenalty, registerStop, registerAreaForStop,
    advanceAreaLock, decNeed, markMealScheduled, cuisineKeyFromName, CUISINE_KEYS,
    recomputeTravelMetadata, recomputeGo, recomputeStep, recomputeShift,
    recomputeTravel, recomputeTravelFor, recomputeBaseMin, minutesTravel,
    travelWithinLimit, ensureGoogleMapsUrl, encodeURIComponentS, utf8Bytes,
    pctByte, unreservedURI, hexDigitUC, gmTryLens, gmAfter, gmTestAt, normName,
    normalizeLocation, stripWBGo, splitOnChars, splitGo, collapseRuns,
    collapseRunsGo, lower, lcs, lcChar, jsOr, jsOrO, isBreakfastCat,
    MAX_AREA_VISITS, AREA_BOUNCE_PENALTY, DAY_START_MIN, nightOwl, nightOwlHours,
    c2State, alSet, alBump, ssAdd, alGet, alDel, resetAreaLockSt,
    MAX_NON_ANCHOR_TRAVEL_MIN, MAX_ANCHOR_TRAVEL_MIN, NEIGHBORHOOD_LOCK_RUN,
    MAX_AREA_RUN]

end TB
